import Mathlib

/-!
# S32K144 drivers: the ring buffer (`src/RingBuffer/RingBuffer.c`)

Shallow embedding of the bounded circular byte queue and the properties its
specification states about it.  The peripheral drivers (PCC, LPUART, PORT,
GPIO) follow in their own namespaces; their conventions are stated there.

Modelling conventions.

* `uint8_t` values are natural numbers; every assignment to a `uint8_t` field
  whose right-hand side is computed by arithmetic is reduced `% 256`, the
  arithmetic itself being done on unbounded numbers (C promotes `uint8_t`
  operands to `int` before `+`, `-` and `%`).  Arguments of type `uint8_t`
  are taken as already converted by the caller; a stored or returned data
  byte is copied, never computed with.
* `queueArr` is a pointer in the source.  The struct carries no length, so the
  embedding keeps the memory the pointer designates as a map from offset to
  byte: `queueArr[i] = data` updates the cell at offset `i`.  The buffer is
  assumed disjoint from the struct itself.
* `x % 0` is undefined in C.  The embedding uses Lean's total `%`; every
  theorem below that reaches a remainder assumes `capacity ≥ 1`.
-/

namespace RingBuffer

/-- The struct `Std_Queue_Types` of `RingBuffer.h`. -/
structure Std_Queue_Types where
  /-- Index of the front element. -/
  front : Nat
  /-- Index of the rear element. -/
  tail : Nat
  /-- Size of the queue. -/
  size : Nat
  /-- Capacity of the queue. -/
  capacity : Nat
  /-- Memory designated by the pointer to the array, by offset. -/
  queueArr : Nat → Nat

/-- The macro `QUEUE_IS_FULL`: `(queue->size) == (queue->capacity)`. -/
def QUEUE_IS_FULL (queue : Std_Queue_Types) : Bool :=
  queue.size == queue.capacity

/-- The macro `QUEUE_IS_EMPTY`: `(queue->size) == 0`. -/
def QUEUE_IS_EMPTY (queue : Std_Queue_Types) : Bool :=
  queue.size == 0

/-- The function `queueInit`: it assigns `capacity` and `queueArr` and nothing
else; `front`, `tail` and `size` keep the values the struct held before. -/
def queueInit (queue : Std_Queue_Types) (arr : Nat → Nat) (capacity : Nat) :
    Std_Queue_Types :=
  { queue with capacity := capacity, queueArr := arr }

/-- The function `queuePush`.  The cell at the old `tail` is written first;
`tail + 1` is computed in `int`, so it does not wrap at 256 before the
remainder is taken; `size += 1` is stored back into eight bits. -/
def queuePush (queue : Std_Queue_Types) (data : Nat) : Std_Queue_Types :=
  if !QUEUE_IS_FULL queue then
    { queue with
      queueArr := fun i => if i = queue.tail then data else queue.queueArr i
      tail := ((queue.tail + 1) % queue.capacity) % 256
      size := (queue.size + 1) % 256 }
  else
    -- Queue is full
    queue

/-- The function `queuePop`: the returned byte and the queue afterwards.
`size -= 1` stored back into eight bits is `(size + 255) % 256`. -/
def queuePop (queue : Std_Queue_Types) : Nat × Std_Queue_Types :=
  let data := 0
  if !QUEUE_IS_EMPTY queue then
    let data := queue.queueArr queue.front
    (data,
      { queue with
        front := ((queue.front + 1) % queue.capacity) % 256
        size := (queue.size + 255) % 256 })
  else
    -- Queue is empty
    (data, queue)

/-- A finite run of `queuePush` calls, one per value, in order. -/
def pushAll (queue : Std_Queue_Types) (vs : List Nat) : Std_Queue_Types :=
  vs.foldl queuePush queue

/-- A run of `n` consecutive `queuePop` calls: the bytes returned, in call
order, and the queue afterwards. -/
def popN : Nat → Std_Queue_Types → List Nat × Std_Queue_Types
  | 0, queue => ([], queue)
  | n + 1, queue =>
    let r := queuePop queue
    let rest := popN n r.2
    (r.1 :: rest.1, rest.2)

/-- One call made by a client of the queue. -/
inductive Call where
  | push (data : Nat)
  | pop
  deriving DecidableEq, Repr

/-- A finite sequence of calls run on the queue: the value each `queuePop`
returned, in call order, and the queue afterwards. -/
def runCalls : Std_Queue_Types → List Call → List Nat × Std_Queue_Types
  | queue, [] => ([], queue)
  | queue, Call.push v :: cs => runCalls (queuePush queue v) cs
  | queue, Call.pop :: cs =>
    let r := queuePop queue
    let rest := runCalls r.2 cs
    (r.1 :: rest.1, rest.2)

/-- Reference bounded FIFO list, following the wording of the specification:
push appends at the back unless the list already holds `capacity` elements, in
which case the new value is dropped. -/
def refPush (capacity : Nat) (l : List Nat) (v : Nat) : List Nat :=
  if l.length = capacity then l else l ++ [v]

/-- Reference bounded FIFO list: pop removes the head, or yields 0 when the
list is empty. -/
def refPop (l : List Nat) : Nat × List Nat :=
  match l with
  | [] => (0, [])
  | a :: rest => (a, rest)

/-- The reference list run on a sequence of calls: the value each pop yielded
and the list afterwards. -/
def refRun (capacity : Nat) : List Nat → List Call → List Nat × List Nat
  | l, [] => ([], l)
  | l, Call.push v :: cs => refRun capacity (refPush capacity l v) cs
  | l, Call.pop :: cs =>
    let r := refPop l
    let rest := refRun capacity r.2 cs
    (r.1 :: rest.1, rest.2)

/-- Representation relation: the queue holds exactly the elements of `l`, oldest
first, in the cells `front, front+1, ..., front+size-1` taken modulo
`capacity`. -/
def Holds (queue : Std_Queue_Types) (l : List Nat) : Prop :=
  1 ≤ queue.capacity ∧ queue.capacity ≤ 255 ∧
  queue.size = l.length ∧ queue.size ≤ queue.capacity ∧
  queue.front < queue.capacity ∧
  queue.tail = (queue.front + queue.size) % queue.capacity ∧
  ∀ i, i < l.length →
    l[i]? = some (queue.queueArr ((queue.front + i) % queue.capacity))

/-! ## Sample inputs -/

/-- A buffer whose cell at offset `i` holds the byte `10 + i` (for `i < 246`). -/
def sampleBuffer : Nat → Nat := fun i => (10 + i) % 256

/-- A zeroed buffer. -/
def zeroBuffer : Nat → Nat := fun _ => 0

/-- A queue struct as `queueInit` leaves it when the struct held zeroes. -/
def emptyQueue (capacity : Nat) : Std_Queue_Types :=
  { front := 0, tail := 0, size := 0, capacity := capacity, queueArr := zeroBuffer }

/-- An empty queue of capacity 4 whose indices stand on the last cell. -/
def emptyQueueAtEnd : Std_Queue_Types :=
  { front := 3, tail := 3, size := 0, capacity := 4, queueArr := sampleBuffer }

/-- A full queue of capacity 3 holding 11, 12, 10 (oldest first). -/
def fullQueue : Std_Queue_Types :=
  { front := 1, tail := 1, size := 3, capacity := 3, queueArr := sampleBuffer }

/-- A queue of capacity 4 holding the two bytes 12, 13 (oldest first). -/
def partQueue : Std_Queue_Types :=
  { front := 2, tail := 0, size := 2, capacity := 4, queueArr := sampleBuffer }

/-- A struct value outside the data-model invariant: `size` exceeds
`capacity`, every field being a `uint8_t` value. -/
def oversizedQueue : Std_Queue_Types :=
  { front := 0, tail := 0, size := 255, capacity := 1, queueArr := zeroBuffer }

/-- A struct that has been in use (or holds stack garbage) before `queueInit`
is called on it. -/
def usedQueue : Std_Queue_Types :=
  { front := 0, tail := 2, size := 3, capacity := 9, queueArr := zeroBuffer }

/-- The wrap-around scenario of the specification, capacity 4, with A..E the
bytes 65..69. -/
def scenarioWrap : List Call :=
  [Call.push 65, Call.push 66, Call.push 67, Call.push 68, Call.pop,
   Call.push 69, Call.pop, Call.pop, Call.pop, Call.pop]

/-- The end-to-end scenario of the specification, capacity 3. -/
def scenarioEndToEnd : List Call :=
  [Call.push 1, Call.push 2, Call.push 3, Call.push 4, Call.pop, Call.push 4,
   Call.pop, Call.pop, Call.pop, Call.pop]

end RingBuffer

/-!
# The peripheral drivers

Modelling conventions for the driver code.

* A hardware register is a natural number below `2 ^ 32`; a register block is
  a record of the registers the code touches, and a register array (`PCCn`,
  `PCR`) is a map from index to register.  Registers are plain memory cells:
  what the peripheral itself does on a write (write-one-to-clear flags,
  write-only registers) is not part of the code and is not modelled.
* A function that writes registers through a pointer takes the pointer and the
  register block it designates, and returns the block afterwards next to its
  C return value.  The null pointer is the address 0.
* The device header `S32K144.h` is not among the sources.  Every constant and
  field-building abbreviation the code takes from it is a field of a header
  record (`PccHeader`, `LpuartHeader`, `PortHeader`, `GpioHeader`) that the
  functions receive as their first argument.  The records `s32k144Pcc`,
  `s32k144Lpuart`, `s32k144Port` and `s32k144Gpio` hold the values of the
  S32K144 reference manual and are the headers used in every concrete
  evaluation.
-/

namespace Bits

/-- Conversion to `uint32_t`. -/
def u32 (x : Nat) : Nat := x % 4294967296

/-- The C operator `~` on a `uint32_t` operand. -/
def not32 (x : Nat) : Nat := 4294967295 - x % 4294967296

/-- The shape of the field-building abbreviations of the device header:
`(((uint32_t)(((uint32_t)(x)) << SHIFT)) & MASK)`. -/
def fieldOf (shift mask x : Nat) : Nat := u32 (u32 x <<< shift) &&& mask

/-- The value of the field selected by `mask`, which starts at bit `shift`. -/
def fieldGet (shift mask reg : Nat) : Nat := (reg &&& mask) >>> shift

end Bits

namespace Pcc

open Bits

/-- The constants of `S32K144.h` used by the PCC code. -/
structure PccHeader where
  PCC_PCCn_CGC_MASK : Nat
  PCC_PCCn_CGC_SHIFT : Nat
  PCC_PCCn_PCS_SHIFT : Nat
  PCC_PCCn_FRAC_SHIFT : Nat

/-- The PCC constants of the S32K144: CGC is bit 30, PCS starts at bit 24 and
FRAC is bit 3. -/
def s32k144Pcc : PccHeader :=
  { PCC_PCCn_CGC_MASK := 0x40000000
    PCC_PCCn_CGC_SHIFT := 30
    PCC_PCCn_PCS_SHIFT := 24
    PCC_PCCn_FRAC_SHIFT := 3 }

/-- The enum `Std_PCC_Status`. -/
inductive Std_PCC_Status where
  | PCC_E_OK
  | PCC_E_NOT_OK
  deriving DecidableEq, Repr

/-- The enumerator `PCD_DIVIDE_BY_1` of `PeripheralClockDividerSelect`. -/
def PCD_DIVIDE_BY_1 : Nat := 0x00
/-- The enumerator `PCD_DIVIDE_BY_2`. -/
def PCD_DIVIDE_BY_2 : Nat := 0x01
/-- The enumerator `PCD_DIVIDE_BY_8` of `PeripheralClockDividerSelect`. -/
def PCD_DIVIDE_BY_8 : Nat := 0x07
/-- The enumerator `PCD_FRACTIONAL_VALUE_0` of `PeripheralClockFractionSelect`. -/
def PCD_FRACTIONAL_VALUE_0 : Nat := 0x0
/-- The enumerator `PCD_FRACTIONAL_VALUE_1`. -/
def PCD_FRACTIONAL_VALUE_1 : Nat := 0x1
/-- The enumerator `CLOCK_OPTION_1` of `PeripheralClockSource`. -/
def CLOCK_OPTION_1 : Nat := 0x01

/-- Assignment to `PCC->PCCn[index]`. -/
def writePCCn (PCCn : Nat → Nat) (index value : Nat) : Nat → Nat :=
  fun i => if i = index then value else PCCn i

/-- The function `HAL_Clock_Source_Select`: the value it returns and the PCCn
array afterwards. -/
def HAL_Clock_Source_Select (h : PccHeader) (PCCn : Nat → Nat)
    (peripheralIndex source : Nat) : Nat × (Nat → Nat) :=
  /- Clear the CGC bit before setting the source. -/
  let PCCn := writePCCn PCCn peripheralIndex
    (PCCn peripheralIndex &&& not32 h.PCC_PCCn_CGC_MASK)
  /- Set the PCS bits to select the clock source. -/
  let PCCn := writePCCn PCCn peripheralIndex
    (PCCn peripheralIndex ||| u32 (source <<< h.PCC_PCCn_PCS_SHIFT))
  (0, PCCn)

/-- The function `HAL_Clock_Divider_Select`.  The divider is shifted by
`PCC_PCCn_CGC_SHIFT`, as in the source. -/
def HAL_Clock_Divider_Select (h : PccHeader) (PCCn : Nat → Nat)
    (peripheralIndex divider fraction : Nat) : Nat × (Nat → Nat) :=
  /- Clear the CGC bit before setting the divider and fraction. -/
  let PCCn := writePCCn PCCn peripheralIndex
    (PCCn peripheralIndex &&& not32 h.PCC_PCCn_CGC_MASK)
  /- Set the divider bits. -/
  let PCCn := writePCCn PCCn peripheralIndex
    (PCCn peripheralIndex ||| u32 (divider <<< h.PCC_PCCn_CGC_SHIFT))
  /- Set the fraction bits. -/
  let PCCn := writePCCn PCCn peripheralIndex
    (PCCn peripheralIndex ||| u32 (fraction <<< h.PCC_PCCn_FRAC_SHIFT))
  (0, PCCn)

/-- The function `PCC_Clock_Source_Select`: the status and the PCCn array
afterwards.  The call of the HAL function is outside the `if`. -/
def PCC_Clock_Source_Select (h : PccHeader) (PCCn : Nat → Nat)
    (peripheralIndex source : Nat) : Std_PCC_Status × (Nat → Nat) :=
  let status := Std_PCC_Status.PCC_E_OK
  /- Prevent changing the clock source if the clock is currently enabled -/
  let status :=
    if PCCn peripheralIndex &&& h.PCC_PCCn_CGC_MASK ≠ 0 then
      Std_PCC_Status.PCC_E_NOT_OK
    else status
  /- Set the clock source using the HAL function -/
  let PCCn := (HAL_Clock_Source_Select h PCCn peripheralIndex source).2
  (status, PCCn)

/-- The function `PCC_Clock_Divider_Select`: the status and the PCCn array
afterwards.  The call of the HAL function is outside the `if`. -/
def PCC_Clock_Divider_Select (h : PccHeader) (PCCn : Nat → Nat)
    (peripheralIndex divider fraction : Nat) : Std_PCC_Status × (Nat → Nat) :=
  let status := Std_PCC_Status.PCC_E_OK
  let status :=
    /- Check for invalid divider values or if the clock is already enabled -/
    if divider > PCD_DIVIDE_BY_8 ∨ PCCn peripheralIndex &&& h.PCC_PCCn_CGC_MASK ≠ 0 then
      Std_PCC_Status.PCC_E_NOT_OK
    /- Additional check for invalid fractional value when divider is set to 1 -/
    else if divider = PCD_DIVIDE_BY_1 ∧ fraction ≠ PCD_FRACTIONAL_VALUE_0 then
      Std_PCC_Status.PCC_E_NOT_OK
    else status
  /- Apply the clock divider and fraction settings using HAL function -/
  let PCCn := (HAL_Clock_Divider_Select h PCCn peripheralIndex divider fraction).2
  (status, PCCn)

/-- A PCCn array in which every register holds `value`. -/
def allPCCn (value : Nat) : Nat → Nat := fun _ => value

/-- The index of the PCC register of LPUART0 (`PCC_LPUART0_INDEX`). -/
def sampleIndex : Nat := 106

end Pcc

namespace Lpuart

open Bits

/-- The constants and field-building abbreviations of `S32K144.h` used by the
LPUART code: the base addresses of the three instances, the bit masks, and the
abbreviations `LPUART_X_F(x)` that place a value in field `F` of register
`X`. -/
structure LpuartHeader where
  LPUART0 : Nat
  LPUART1 : Nat
  LPUART2 : Nat
  LPUART_BAUD_SBR_MASK : Nat
  LPUART_BAUD_SBR : Nat → Nat
  LPUART_BAUD_SBNS_MASK : Nat
  LPUART_BAUD_SBNS : Nat → Nat
  LPUART_BAUD_OSR_MASK : Nat
  LPUART_BAUD_OSR : Nat → Nat
  LPUART_BAUD_M10_MASK : Nat
  LPUART_STAT_RXINV_MASK : Nat
  LPUART_STAT_RXINV : Nat → Nat
  LPUART_STAT_MSBF_MASK : Nat
  LPUART_STAT_MSBF : Nat → Nat
  LPUART_CTRL_PT_MASK : Nat
  LPUART_CTRL_PE_MASK : Nat
  LPUART_CTRL_M_MASK : Nat
  LPUART_CTRL_M7_MASK : Nat
  LPUART_CTRL_RE_MASK : Nat
  LPUART_CTRL_TE_MASK : Nat
  LPUART_CTRL_RIE_MASK : Nat
  LPUART_CTRL_RIE : Nat → Nat
  LPUART_CTRL_TCIE_MASK : Nat
  LPUART_CTRL_TCIE : Nat → Nat
  LPUART_CTRL_TIE_MASK : Nat
  LPUART_CTRL_TIE : Nat → Nat
  LPUART_CTRL_PEIE_MASK : Nat
  LPUART_CTRL_PEIE : Nat → Nat
  LPUART_CTRL_FEIE_MASK : Nat
  LPUART_CTRL_FEIE : Nat → Nat
  LPUART_CTRL_NEIE_MASK : Nat
  LPUART_CTRL_NEIE : Nat → Nat
  LPUART_CTRL_ORIE_MASK : Nat
  LPUART_CTRL_ORIE : Nat → Nat
  LPUART_CTRL_TXINV_MASK : Nat
  LPUART_CTRL_TXINV : Nat → Nat

/-- The LPUART constants of the S32K144.  BAUD: SBR bits 0..12, SBNS bit 13,
OSR bits 24..28, M10 bit 29.  STAT: RXINV bit 28, MSBF bit 29.  CTRL: PT bit 0,
PE bit 1, M bit 4, M7 bit 11, RE bit 18, TE bit 19, RIE bit 21, TCIE bit 22,
TIE bit 23, PEIE bit 24, FEIE bit 25, NEIE bit 26, ORIE bit 27, TXINV
bit 28. -/
def s32k144Lpuart : LpuartHeader :=
  { LPUART0 := 0x4006A000
    LPUART1 := 0x4006B000
    LPUART2 := 0x4006C000
    LPUART_BAUD_SBR_MASK := 0x1FFF
    LPUART_BAUD_SBR := fieldOf 0 0x1FFF
    LPUART_BAUD_SBNS_MASK := 0x2000
    LPUART_BAUD_SBNS := fieldOf 13 0x2000
    LPUART_BAUD_OSR_MASK := 0x1F000000
    LPUART_BAUD_OSR := fieldOf 24 0x1F000000
    LPUART_BAUD_M10_MASK := 0x20000000
    LPUART_STAT_RXINV_MASK := 0x10000000
    LPUART_STAT_RXINV := fieldOf 28 0x10000000
    LPUART_STAT_MSBF_MASK := 0x20000000
    LPUART_STAT_MSBF := fieldOf 29 0x20000000
    LPUART_CTRL_PT_MASK := 0x1
    LPUART_CTRL_PE_MASK := 0x2
    LPUART_CTRL_M_MASK := 0x10
    LPUART_CTRL_M7_MASK := 0x800
    LPUART_CTRL_RE_MASK := 0x40000
    LPUART_CTRL_TE_MASK := 0x80000
    LPUART_CTRL_RIE_MASK := 0x200000
    LPUART_CTRL_RIE := fieldOf 21 0x200000
    LPUART_CTRL_TCIE_MASK := 0x400000
    LPUART_CTRL_TCIE := fieldOf 22 0x400000
    LPUART_CTRL_TIE_MASK := 0x800000
    LPUART_CTRL_TIE := fieldOf 23 0x800000
    LPUART_CTRL_PEIE_MASK := 0x1000000
    LPUART_CTRL_PEIE := fieldOf 24 0x1000000
    LPUART_CTRL_FEIE_MASK := 0x2000000
    LPUART_CTRL_FEIE := fieldOf 25 0x2000000
    LPUART_CTRL_NEIE_MASK := 0x4000000
    LPUART_CTRL_NEIE := fieldOf 26 0x4000000
    LPUART_CTRL_ORIE_MASK := 0x8000000
    LPUART_CTRL_ORIE := fieldOf 27 0x8000000
    LPUART_CTRL_TXINV_MASK := 0x10000000
    LPUART_CTRL_TXINV := fieldOf 28 0x10000000 }

/-- The registers of an `LPUART_Type` block that the code touches. -/
structure LPUART_Type where
  BAUD : Nat
  STAT : Nat
  CTRL : Nat
  DATA : Nat
  deriving DecidableEq, Repr

/-- The enum `Std_LPUART_Status`. -/
inductive Std_LPUART_Status where
  | LPUART_E_OK
  | LPUART_E_NOT_OK
  deriving DecidableEq, Repr

/-- The struct `LPUART_Config_Type`. -/
structure LPUART_Config_Type where
  frameLenth : Nat
  parityMode : Nat
  nOfStopBits : Nat
  msbFirst : Nat
  txInterrupt : Nat
  rxInterrupt : Nat
  txCompleteInterrupt : Nat
  overRunInterrupt : Nat
  noiseErrorInterrupt : Nat
  frameErrorInterrupt : Nat
  parityErrorInterrupt : Nat
  rxPolarity : Nat
  txPolarity : Nat
  baudRate : Nat
  deriving DecidableEq, Repr

/-- The struct `LPUART_Handle_Type`. -/
structure LPUART_Handle_Type where
  pLPUARTx : Nat
  LPUART_Config : LPUART_Config_Type
  deriving DecidableEq, Repr

/-! The constants of `s32k144_lpuart_driver.h`. -/

def LPUART_FRAME_10BITS : Nat := 0xA
def LPUART_FRAME_9BITS : Nat := 0x9
def LPUART_FRAME_8BITS : Nat := 0x8
def LPUART_FRAME_7BITS : Nat := 0x7
def LPUART_PARITY_EVEN : Nat := 0x0
def LPUART_PARITY_ODD : Nat := 0x1
def LPUART_PARITY_DISABLE : Nat := 0x2
def LPUART_STOP_BITS_1 : Nat := 0x0
def LPUART_STOP_BITS_2 : Nat := 0x1
def LPUART_MSB_FIRST : Nat := 0x0
def LPUART_LSB_FIRST : Nat := 0x1
def LPUART_TX_INTERRUPT_ENABLE : Nat := 0x1
def LPUART_TX_INTERRUPT_DISABLE : Nat := 0x0
def LPUART_RX_INTERRUPT_ENABLE : Nat := 0x1
def LPUART_RX_INTERRUPT_DISABLE : Nat := 0x0
def LPUART_TX_COMPLETE_INTERRUPT_ENABLE : Nat := 0x1
def LPUART_TX_COMPLETE_INTERRUPT_DISABLE : Nat := 0x0
def LPUART_OVERRUN_INTERRUPT_ENABLE : Nat := 0x1
def LPUART_OVERRUN_INTERRUPT_DISABLE : Nat := 0x0
def LPUART_NOISE_ERROR_INTERRUPT_ENABLE : Nat := 0x1
def LPUART_NOISE_ERROR_INTERRUPT_DISABLE : Nat := 0x0
def LPUART_FRAME_ERROR_INTERRUPT_ENABLE : Nat := 0x1
def LPUART_FRAME_ERROR_INTERRUPT_DISABLE : Nat := 0x0
def LPUART_PARITY_ERROR_INTERRUPT_ENABLE : Nat := 0x1
def LPUART_PARITY_ERROR_INTERRUPT_DISABLE : Nat := 0x0
def LPUART_TX_DATA_INVERSION_ENABLE : Nat := 0x1
def LPUART_TX_DATA_INVERSION_DISABLE : Nat := 0x0
def LPUART_RX_DATA_INVERSION_ENABLE : Nat := 0x1
def LPUART_RX_DATA_INVERSION_DISABLE : Nat := 0x0

/-! The enumerators of `s32k144_lpuart_hal.h`. -/

/-- The enumerator `EVEN` of `LPUART_ParityMode_Type`. -/
def EVEN : Nat := 0
/-- The enumerator `ODD` of `LPUART_ParityMode_Type`. -/
def ODD : Nat := 1
/-- The enumerator `NONE` of `LPUART_ParityMode_Type`. -/
def NONE : Nat := 2
/-- The enumerator `FRAME_7BITS` of `LPUART_FrameLength_Type`. -/
def FRAME_7BITS : Nat := 0
/-- The enumerator `FRAME_8BITS` of `LPUART_FrameLength_Type`. -/
def FRAME_8BITS : Nat := 1
/-- The enumerator `FRAME_9BITS` of `LPUART_FrameLength_Type`. -/
def FRAME_9BITS : Nat := 2
/-- The enumerator `FRAME_10BITS` of `LPUART_FrameLength_Type`. -/
def FRAME_10BITS : Nat := 3

/-- The global `clock` of `s32k144_pcc_hal.c`, at its initial value; no code
under `src/` assigns it. -/
def clock : Nat := 48000000

/-- The abbreviation `MAX_BAUDRATE`: `(clock / 4)`. -/
def MAX_BAUDRATE : Nat := clock / 4

/-- The abbreviation `INSTANCE_IS_AVAILABLE`. -/
def INSTANCE_IS_AVAILABLE (h : LpuartHeader) (Instance : Nat) : Bool :=
  (Instance == h.LPUART0) || (Instance == h.LPUART1) || (Instance == h.LPUART2)

/-! The functions of `s32k144_lpuart_hal.c`.  Each takes the register block
designated by `pLPUARTx` and returns it as the function leaves it. -/

/-- The function `HAL_LPUART_FrameLengthConfig`: a `switch` over the four
enumerators of `LPUART_FrameLength_Type`, without `default`. -/
def HAL_LPUART_FrameLengthConfig (h : LpuartHeader) (r : LPUART_Type)
    (frameLength : Nat) : LPUART_Type :=
  if frameLength = FRAME_7BITS then
    let r := { r with CTRL := u32 (r.CTRL ||| h.LPUART_CTRL_M7_MASK) }
    let r := { r with CTRL := r.CTRL &&& not32 h.LPUART_CTRL_M_MASK }
    { r with BAUD := r.BAUD &&& not32 h.LPUART_BAUD_M10_MASK }
  else if frameLength = FRAME_8BITS then
    let r := { r with CTRL := r.CTRL &&& not32 h.LPUART_CTRL_M7_MASK }
    let r := { r with CTRL := r.CTRL &&& not32 h.LPUART_CTRL_M_MASK }
    { r with BAUD := r.BAUD &&& not32 h.LPUART_BAUD_M10_MASK }
  else if frameLength = FRAME_9BITS then
    let r := { r with CTRL := r.CTRL &&& not32 h.LPUART_CTRL_M7_MASK }
    let r := { r with CTRL := u32 (r.CTRL ||| h.LPUART_CTRL_M_MASK) }
    { r with BAUD := r.BAUD &&& not32 h.LPUART_BAUD_M10_MASK }
  else if frameLength = FRAME_10BITS then
    let r := { r with CTRL := r.CTRL &&& not32 h.LPUART_CTRL_M7_MASK }
    let r := { r with CTRL := r.CTRL &&& not32 h.LPUART_CTRL_M_MASK }
    { r with BAUD := u32 (r.BAUD ||| h.LPUART_BAUD_M10_MASK) }
  else
    r

/-- The function `HAL_LPUART_ParityConfig`. -/
def HAL_LPUART_ParityConfig (h : LpuartHeader) (r : LPUART_Type) (mode : Nat) :
    LPUART_Type :=
  if NONE = mode then
    { r with CTRL := r.CTRL &&& not32 h.LPUART_CTRL_PE_MASK }
  else
    let r := { r with CTRL := u32 (r.CTRL ||| h.LPUART_CTRL_PE_MASK) }
    if EVEN = mode then
      { r with CTRL := r.CTRL &&& not32 h.LPUART_CTRL_PT_MASK }
    else
      { r with CTRL := u32 (r.CTRL ||| h.LPUART_CTRL_PT_MASK) }

/-- The function `HAL_LPUART_TxDataInversionConfig`. -/
def HAL_LPUART_TxDataInversionConfig (h : LpuartHeader) (r : LPUART_Type)
    (enable : Nat) : LPUART_Type :=
  let r := { r with CTRL := r.CTRL &&& not32 h.LPUART_CTRL_TXINV_MASK }
  { r with CTRL := u32 (r.CTRL ||| h.LPUART_CTRL_TXINV enable) }

/-- The function `HAL_LPUART_RxDataInversionConfig`, which applies the STAT
constants to CTRL, as in the source. -/
def HAL_LPUART_RxDataInversionConfig (h : LpuartHeader) (r : LPUART_Type)
    (enable : Nat) : LPUART_Type :=
  let r := { r with CTRL := r.CTRL &&& not32 h.LPUART_STAT_RXINV_MASK }
  { r with CTRL := u32 (r.CTRL ||| h.LPUART_STAT_RXINV enable) }

/-- The function `HAL_LPUART_SetNumOfStopBit`. -/
def HAL_LPUART_SetNumOfStopBit (h : LpuartHeader) (r : LPUART_Type)
    (nOfStopBits : Nat) : LPUART_Type :=
  let r := { r with BAUD := r.BAUD &&& not32 h.LPUART_BAUD_SBNS_MASK }
  { r with BAUD := u32 (r.BAUD ||| h.LPUART_BAUD_SBNS nOfStopBits) }

/-- The function `HAL_LPUART_MSBFConfig`, which applies the STAT constants to
CTRL, as in the source. -/
def HAL_LPUART_MSBFConfig (h : LpuartHeader) (r : LPUART_Type)
    (lsbMsbFirst : Nat) : LPUART_Type :=
  let r := { r with CTRL := r.CTRL &&& not32 h.LPUART_STAT_MSBF_MASK }
  { r with CTRL := u32 (r.CTRL ||| h.LPUART_STAT_MSBF lsbMsbFirst) }

/-- The function `HAL_LPUART_SetTE`. -/
def HAL_LPUART_SetTE (h : LpuartHeader) (r : LPUART_Type) : LPUART_Type :=
  { r with CTRL := u32 (r.CTRL ||| h.LPUART_CTRL_TE_MASK) }

/-- The function `HAL_LPUART_ClearTE`. -/
def HAL_LPUART_ClearTE (h : LpuartHeader) (r : LPUART_Type) : LPUART_Type :=
  { r with CTRL := r.CTRL &&& not32 h.LPUART_CTRL_TE_MASK }

/-- The function `HAL_LPUART_SetRE`. -/
def HAL_LPUART_SetRE (h : LpuartHeader) (r : LPUART_Type) : LPUART_Type :=
  { r with CTRL := u32 (r.CTRL ||| h.LPUART_CTRL_RE_MASK) }

/-- The function `HAL_LPUART_ClearRE`. -/
def HAL_LPUART_ClearRE (h : LpuartHeader) (r : LPUART_Type) : LPUART_Type :=
  { r with CTRL := r.CTRL &&& not32 h.LPUART_CTRL_RE_MASK }

/-- The function `HAL_LPUART_SetBaudrate`. -/
def HAL_LPUART_SetBaudrate (h : LpuartHeader) (r : LPUART_Type)
    (OSRVal SBRVal : Nat) : LPUART_Type :=
  { r with
    BAUD := u32 ((r.BAUD &&& not32 (h.LPUART_BAUD_OSR_MASK ||| h.LPUART_BAUD_SBR_MASK))
      ||| h.LPUART_BAUD_OSR OSRVal ||| h.LPUART_BAUD_SBR SBRVal) }

/-- The function `HAL_LPUART_TxInterruptConfig`. -/
def HAL_LPUART_TxInterruptConfig (h : LpuartHeader) (r : LPUART_Type)
    (enable : Nat) : LPUART_Type :=
  let r := { r with CTRL := r.CTRL &&& not32 h.LPUART_CTRL_TIE_MASK }
  { r with CTRL := u32 (r.CTRL ||| h.LPUART_CTRL_TIE enable) }

/-- The function `HAL_LPUART_TxCompleteInterruptConfig`. -/
def HAL_LPUART_TxCompleteInterruptConfig (h : LpuartHeader) (r : LPUART_Type)
    (enable : Nat) : LPUART_Type :=
  let r := { r with CTRL := r.CTRL &&& not32 h.LPUART_CTRL_TCIE_MASK }
  { r with CTRL := u32 (r.CTRL ||| h.LPUART_CTRL_TCIE enable) }

/-- The function `HAL_LPUART_RxInterruptConfig`. -/
def HAL_LPUART_RxInterruptConfig (h : LpuartHeader) (r : LPUART_Type)
    (enable : Nat) : LPUART_Type :=
  let r := { r with CTRL := r.CTRL &&& not32 h.LPUART_CTRL_RIE_MASK }
  { r with CTRL := u32 (r.CTRL ||| h.LPUART_CTRL_RIE enable) }

/-- The function `HAL_LPUART_OverRunInterruptConfig`. -/
def HAL_LPUART_OverRunInterruptConfig (h : LpuartHeader) (r : LPUART_Type)
    (enable : Nat) : LPUART_Type :=
  let r := { r with CTRL := r.CTRL &&& not32 h.LPUART_CTRL_ORIE_MASK }
  { r with CTRL := u32 (r.CTRL ||| h.LPUART_CTRL_ORIE enable) }

/-- The function `HAL_LPUART_NoiseErrorInterruptConfig`. -/
def HAL_LPUART_NoiseErrorInterruptConfig (h : LpuartHeader) (r : LPUART_Type)
    (enable : Nat) : LPUART_Type :=
  let r := { r with CTRL := r.CTRL &&& not32 h.LPUART_CTRL_NEIE_MASK }
  { r with CTRL := u32 (r.CTRL ||| h.LPUART_CTRL_NEIE enable) }

/-- The function `HAL_LPUART_FrameErrorInterruptConfig`. -/
def HAL_LPUART_FrameErrorInterruptConfig (h : LpuartHeader) (r : LPUART_Type)
    (enable : Nat) : LPUART_Type :=
  let r := { r with CTRL := r.CTRL &&& not32 h.LPUART_CTRL_FEIE_MASK }
  { r with CTRL := u32 (r.CTRL ||| h.LPUART_CTRL_FEIE enable) }

/-- The function `HAL_LPUART_ParityErrorInterruptConfig`. -/
def HAL_LPUART_ParityErrorInterruptConfig (h : LpuartHeader) (r : LPUART_Type)
    (enable : Nat) : LPUART_Type :=
  let r := { r with CTRL := r.CTRL &&& not32 h.LPUART_CTRL_PEIE_MASK }
  { r with CTRL := u32 (r.CTRL ||| h.LPUART_CTRL_PEIE enable) }

/-! The functions of `s32k144_lpuart_driver.c`.

The `float` variables of the baud-rate search hold exact rationals: the
rounding of single-precision arithmetic is not modelled.  An integer division
by zero is undefined behaviour in C: the code that can reach one returns an
`Option`, and `none` says that a division was reached with the divisor 0, so
that the function has no defined result. -/

/-- The function `LPUART_CheckHandleValidation`. -/
def LPUART_CheckHandleValidation (h : LpuartHeader)
    (pLPUARTHandle : LPUART_Handle_Type) : Std_LPUART_Status :=
  let status := Std_LPUART_Status.LPUART_E_NOT_OK
  let c := pLPUARTHandle.LPUART_Config
  if INSTANCE_IS_AVAILABLE h pLPUARTHandle.pLPUARTx ∧
      LPUART_FRAME_7BITS ≤ c.frameLenth ∧
      LPUART_FRAME_10BITS ≥ c.frameLenth ∧
      LPUART_PARITY_DISABLE ≥ c.parityMode ∧
      (LPUART_STOP_BITS_1 = c.nOfStopBits ∨ LPUART_STOP_BITS_2 = c.nOfStopBits) ∧
      (LPUART_MSB_FIRST = c.msbFirst ∨ LPUART_LSB_FIRST = c.msbFirst) ∧
      (LPUART_TX_INTERRUPT_DISABLE = c.txInterrupt ∨
        LPUART_TX_INTERRUPT_ENABLE = c.txInterrupt) ∧
      (LPUART_RX_INTERRUPT_DISABLE = c.rxInterrupt ∨
        LPUART_RX_INTERRUPT_ENABLE = c.rxInterrupt) ∧
      (LPUART_TX_COMPLETE_INTERRUPT_DISABLE = c.txCompleteInterrupt ∨
        LPUART_TX_COMPLETE_INTERRUPT_ENABLE = c.txCompleteInterrupt) ∧
      (LPUART_OVERRUN_INTERRUPT_DISABLE = c.overRunInterrupt ∨
        LPUART_OVERRUN_INTERRUPT_ENABLE = c.overRunInterrupt) ∧
      (LPUART_NOISE_ERROR_INTERRUPT_DISABLE = c.noiseErrorInterrupt ∨
        LPUART_NOISE_ERROR_INTERRUPT_ENABLE = c.noiseErrorInterrupt) ∧
      (LPUART_FRAME_ERROR_INTERRUPT_DISABLE = c.frameErrorInterrupt ∨
        LPUART_FRAME_ERROR_INTERRUPT_ENABLE = c.frameErrorInterrupt) ∧
      (LPUART_PARITY_ERROR_INTERRUPT_DISABLE = c.parityErrorInterrupt ∨
        LPUART_PARITY_ERROR_INTERRUPT_ENABLE = c.parityErrorInterrupt) ∧
      (LPUART_TX_DATA_INVERSION_DISABLE = c.txPolarity ∨
        LPUART_TX_DATA_INVERSION_ENABLE = c.txPolarity) ∧
      (LPUART_RX_DATA_INVERSION_DISABLE = c.rxPolarity ∨
        LPUART_RX_DATA_INVERSION_ENABLE = c.rxPolarity) ∧
      0 < c.baudRate ∧
      MAX_BAUDRATE ≥ c.baudRate then
    Std_LPUART_Status.LPUART_E_OK
  else
    status

/-- The locals `minError`, `osrVal` and `sbrVal` of `LPUART_BaudRateConfig`. -/
structure SearchState where
  minError : ℚ
  osrVal : Nat
  sbrVal : Nat
  deriving DecidableEq

/-- The local `tmpSBRval` of the loop body: `clock / ((i + 1) * baudRate)`,
the product being a `uint32_t`, stored in a `uint16_t`.  The divisor is
checked by `searchBody` before this value is used. -/
def tmpSBRval (baudRate i : Nat) : Nat :=
  (clock / u32 ((i + 1) * baudRate)) % 65536

/-- The local `tmpBaudRate` of the loop body: `clock / ((i + 1) * tmpSBRval)`;
`none` when the divisor `(i + 1) * tmpSBRval` is 0. -/
def tmpBaudRate (baudRate i : Nat) : Option Nat :=
  if (i + 1) * tmpSBRval baudRate i = 0 then
    none
  else
    some (clock / ((i + 1) * tmpSBRval baudRate i))

/-- The local `error` of the loop body, from the value of `tmpBaudRate`:
`((float)(tmpBaudRate - baudRate) / baudRate) * 100`, the difference being a
`uint32_t`. -/
def searchError (baudRate tmpBaudRate : Nat) : ℚ :=
  ((u32 (tmpBaudRate + 4294967296 - u32 baudRate) : ℚ) / (baudRate : ℚ)) * 100

/-- The body of the `for` loop of `LPUART_BaudRateConfig` at loop variable
`i`: the locals afterwards, or `none` when one of its two divisions has the
divisor 0. -/
def searchBody (baudRate i : Nat) (s : SearchState) : Option SearchState :=
  if u32 ((i + 1) * baudRate) = 0 then
    none
  else
    match tmpBaudRate baudRate i with
    | none => none
    | some rate =>
      let error := searchError baudRate rate
      if error < s.minError then
        some { minError := error, osrVal := i, sbrVal := tmpSBRval baudRate i }
      else
        some s

/-- The `for` loop of `LPUART_BaudRateConfig` entered with loop variable `i`:
the condition `(i >= 3) && (minError != 0)` is tested before each iteration
and `i` is decremented after it; with `i = 0` the condition is false.  The
result is `none` when an iteration divides by zero. -/
def searchLoop (baudRate : Nat) : Nat → SearchState → Option SearchState
  | 0, s => some s
  | i + 1, s =>
    if 3 ≤ i + 1 ∧ s.minError ≠ 0 then
      match searchBody baudRate (i + 1) s with
      | none => none
      | some s => searchLoop baudRate i s
    else
      some s

/-- The function `LPUART_BaudRateConfig`: the status and the register block
afterwards, or `none` when the loop divides by zero. -/
def LPUART_BaudRateConfig (h : LpuartHeader) (pLPUARTx : Nat) (r : LPUART_Type)
    (baudRate : Nat) : Option (Std_LPUART_Status × LPUART_Type) :=
  let status := Std_LPUART_Status.LPUART_E_NOT_OK
  if INSTANCE_IS_AVAILABLE h pLPUARTx ∧ 0 ≠ baudRate ∧ MAX_BAUDRATE ≥ baudRate then
    match searchLoop baudRate 31 { minError := 100, osrVal := 0, sbrVal := 0 } with
    | none => none
    | some s =>
      let r := HAL_LPUART_SetBaudrate h r s.osrVal s.sbrVal
      some (Std_LPUART_Status.LPUART_E_OK, r)
  else
    some (status, r)

/-- The function `LPUART_Init`: the status and the register block afterwards,
or `none` when its call of `LPUART_BaudRateConfig` divides by zero. -/
def LPUART_Init (h : LpuartHeader) (pLPUARTHandle : LPUART_Handle_Type)
    (r : LPUART_Type) : Option (Std_LPUART_Status × LPUART_Type) :=
  let status := Std_LPUART_Status.LPUART_E_NOT_OK
  let c := pLPUARTHandle.LPUART_Config
  if Std_LPUART_Status.LPUART_E_OK = LPUART_CheckHandleValidation h pLPUARTHandle then
    let r := HAL_LPUART_ClearTE h r
    let r := HAL_LPUART_ClearRE h r
    let r := HAL_LPUART_FrameLengthConfig h r c.frameLenth
    let r := HAL_LPUART_ParityConfig h r c.parityMode
    let r := HAL_LPUART_TxDataInversionConfig h r c.txPolarity
    let r := HAL_LPUART_RxDataInversionConfig h r c.rxPolarity
    let r := HAL_LPUART_SetNumOfStopBit h r c.nOfStopBits
    let r := HAL_LPUART_MSBFConfig h r c.msbFirst
    match LPUART_BaudRateConfig h pLPUARTHandle.pLPUARTx r c.baudRate with
    | none => none
    | some (_, r) =>
      let r := HAL_LPUART_TxInterruptConfig h r c.txInterrupt
      let r := HAL_LPUART_TxCompleteInterruptConfig h r c.txCompleteInterrupt
      let r := HAL_LPUART_RxInterruptConfig h r c.rxInterrupt
      let r := HAL_LPUART_OverRunInterruptConfig h r c.overRunInterrupt
      let r := HAL_LPUART_NoiseErrorInterruptConfig h r c.noiseErrorInterrupt
      let r := HAL_LPUART_FrameErrorInterruptConfig h r c.frameErrorInterrupt
      let r := HAL_LPUART_ParityErrorInterruptConfig h r c.parityErrorInterrupt
      let r := HAL_LPUART_SetTE h r
      let r := HAL_LPUART_SetRE h r
      some (Std_LPUART_Status.LPUART_E_OK, r)
  else
    some (status, r)

/-- The function `LPUART_SetTxState`.  It calls
`HAL_LPUART_TxInterruptConfig`, as in the source. -/
def LPUART_SetTxState (h : LpuartHeader) (pLPUARTx : Nat) (r : LPUART_Type)
    (enable : Nat) : Std_LPUART_Status × LPUART_Type :=
  let status := Std_LPUART_Status.LPUART_E_NOT_OK
  if INSTANCE_IS_AVAILABLE h pLPUARTx ∧ (0 = enable ∨ 1 = enable) then
    let r := HAL_LPUART_TxInterruptConfig h r enable
    (Std_LPUART_Status.LPUART_E_OK, r)
  else
    (status, r)

/-- The function `LPUART_SetRxState`.  It calls
`HAL_LPUART_RxInterruptConfig`, as in the source. -/
def LPUART_SetRxState (h : LpuartHeader) (pLPUARTx : Nat) (r : LPUART_Type)
    (enable : Nat) : Std_LPUART_Status × LPUART_Type :=
  let status := Std_LPUART_Status.LPUART_E_NOT_OK
  if INSTANCE_IS_AVAILABLE h pLPUARTx ∧ (0 = enable ∨ 1 = enable) then
    let r := HAL_LPUART_RxInterruptConfig h r enable
    (Std_LPUART_Status.LPUART_E_OK, r)
  else
    (status, r)

/-- The function `LPUART_NoiseErrorInterruptConfig`.  It calls
`HAL_LPUART_OverRunInterruptConfig`, as in the source. -/
def LPUART_NoiseErrorInterruptConfig (h : LpuartHeader) (pLPUARTx : Nat)
    (r : LPUART_Type) (enable : Nat) : Std_LPUART_Status × LPUART_Type :=
  let status := Std_LPUART_Status.LPUART_E_NOT_OK
  if INSTANCE_IS_AVAILABLE h pLPUARTx ∧ (0 = enable ∨ 1 = enable) then
    let r := HAL_LPUART_OverRunInterruptConfig h r enable
    (Std_LPUART_Status.LPUART_E_OK, r)
  else
    (status, r)

/-- The function `HAL_LPUART_RxFrame`, called for the `k`-th time: once the
peripheral has raised RDRF the function returns DATA as a `uint16_t`.
`incoming k` is the content of DATA at that moment; the wait itself is the
peripheral's doing and is not modelled. -/
def HAL_LPUART_RxFrame (incoming : Nat → Nat) (k : Nat) : Nat :=
  incoming k % 65536

/-- The `for` loop of `LPUART_RxMultiFrame`, with its own loop variable
`nOfDataRx` standing at `n` and `todo` iterations left
(`n + todo = len`). -/
def rxLoop (incoming : Nat → Nat) : Nat → Nat → (Nat → Nat) → (Nat → Nat)
  | 0, _, pRxBuffer => pRxBuffer
  | todo + 1, n, pRxBuffer =>
    rxLoop incoming todo (n + 1)
      (fun i => if i = n then HAL_LPUART_RxFrame incoming n else pRxBuffer i)

/-- The function `LPUART_RxMultiFrame`: the value returned and the receive
buffer afterwards.  `pRxBuffer` is the memory at the pointer, by element; the
check `0 != *pRxBuffer` reads element 0.  The loop declares a second variable
`nOfDataRx`; the one returned is the outer one. -/
def LPUART_RxMultiFrame (h : LpuartHeader) (pLPUARTx : Nat) (incoming : Nat → Nat)
    (pRxBuffer : Nat → Nat) (len : Nat) : Nat × (Nat → Nat) :=
  let nOfDataRx := 0
  if INSTANCE_IS_AVAILABLE h pLPUARTx ∧ 0 ≠ pRxBuffer 0 ∧ 0 ≠ len then
    let pRxBuffer := rxLoop incoming len 0 pRxBuffer
    (nOfDataRx, pRxBuffer)
  else
    (nOfDataRx, pRxBuffer)

/-! Sample inputs. -/

/-- A register block at its reset values: BAUD `0x0F000004`, STAT
`0x00C00000`, CTRL 0, DATA `0x1000`. -/
def lpuartResetRegs : LPUART_Type :=
  { BAUD := 0x0F000004, STAT := 0x00C00000, CTRL := 0, DATA := 0x1000 }

/-- A configuration that `LPUART_CheckHandleValidation` accepts, for the given
frame length: no parity, one stop bit, no interrupts, 9600 baud. -/
def sampleLpuartConfig (frameLenth : Nat) : LPUART_Config_Type :=
  { frameLenth := frameLenth
    parityMode := LPUART_PARITY_DISABLE
    nOfStopBits := LPUART_STOP_BITS_1
    msbFirst := LPUART_MSB_FIRST
    txInterrupt := LPUART_TX_INTERRUPT_DISABLE
    rxInterrupt := LPUART_RX_INTERRUPT_DISABLE
    txCompleteInterrupt := LPUART_TX_COMPLETE_INTERRUPT_DISABLE
    overRunInterrupt := LPUART_OVERRUN_INTERRUPT_DISABLE
    noiseErrorInterrupt := LPUART_NOISE_ERROR_INTERRUPT_DISABLE
    frameErrorInterrupt := LPUART_FRAME_ERROR_INTERRUPT_DISABLE
    parityErrorInterrupt := LPUART_PARITY_ERROR_INTERRUPT_DISABLE
    rxPolarity := LPUART_RX_DATA_INVERSION_DISABLE
    txPolarity := LPUART_TX_DATA_INVERSION_DISABLE
    baudRate := 9600 }

/-- A handle for LPUART0 with `sampleLpuartConfig`. -/
def sampleHandle (frameLenth : Nat) : LPUART_Handle_Type :=
  { pLPUARTx := s32k144Lpuart.LPUART0, LPUART_Config := sampleLpuartConfig frameLenth }

/-- A receive buffer whose element 0 is non-zero. -/
def sampleRxBuffer : Nat → Nat := fun _ => 0xFFFF

/-- Frames arriving at the receiver: 0x41, 0x42, 0x43, ... -/
def sampleIncoming : Nat → Nat := fun k => 0x41 + k

end Lpuart

namespace Port

open Bits

/-- The constants and field-building abbreviations of `S32K144.h` used by the
PORT code. -/
structure PortHeader where
  PORTA : Nat
  PORTB : Nat
  PORTC : Nat
  PORTD : Nat
  PORTE : Nat
  PORT_PCR_PS_MASK : Nat
  PORT_PCR_PE_MASK : Nat
  PORT_PCR_MUX_MASK : Nat
  PORT_PCR_MUX : Nat → Nat
  PORT_PCR_IRQC_MASK : Nat
  PORT_PCR_IRQC_SHIFT : Nat
  PORT_PCR_IRQC : Nat → Nat
  PORT_PCR_ISF : Nat → Nat

/-- The PORT constants of the S32K144.  PCR: PS bit 0, PE bit 1, MUX bits
8..10, IRQC bits 16..19, ISF bit 24. -/
def s32k144Port : PortHeader :=
  { PORTA := 0x40049000
    PORTB := 0x4004A000
    PORTC := 0x4004B000
    PORTD := 0x4004C000
    PORTE := 0x4004D000
    PORT_PCR_PS_MASK := 0x1
    PORT_PCR_PE_MASK := 0x2
    PORT_PCR_MUX_MASK := 0x700
    PORT_PCR_MUX := fieldOf 8 0x700
    PORT_PCR_IRQC_MASK := 0xF0000
    PORT_PCR_IRQC_SHIFT := 16
    PORT_PCR_IRQC := fieldOf 16 0xF0000
    PORT_PCR_ISF := fieldOf 24 0x1000000 }

/-- The abbreviation `PORT_MAX_PINS`. -/
def PORT_MAX_PINS : Nat := 32

/-- The abbreviation `PIN_IS_AVAILABLE` of `s32k144_port_hal.h`. -/
def PIN_IS_AVAILABLE (n : Nat) : Bool := n < PORT_MAX_PINS

/-- The null pointer. -/
def NULL : Nat := 0

/-- The enum `Std_HAL_Status`. -/
inductive Std_HAL_Status where
  | HAL_E_OK
  | HAL_E_NOT_OK
  deriving DecidableEq, Repr

/-- The enum `Std_PORT_Status`. -/
inductive Std_PORT_Status where
  | PORT_E_OK
  | PORT_E_NOT_OK
  deriving DecidableEq, Repr

/-- The enumerators of `PORT_PULL_ENABLE_type`. -/
def PORT_PIN_PULL_DISABLE : Nat := 0
def PORT_PIN_PULL_ENABLE : Nat := 1

/-- The enumerators of `PORT_PIN_PULL_MODE_type`. -/
def PORT_PIN_PULLDOWN : Nat := 0
def PORT_PIN_PULLUP : Nat := 1

/-- The enumerators of `PORT_IRQ_MODE_type`. -/
def PORT_IRQ_MODE_DISABLED : Nat := 0x0
def PORT_IRQ_MODE_RISING_EDGE : Nat := 0x1
def PORT_IRQ_MODE_FALLING_EDGE : Nat := 0x2
def PORT_IRQ_MODE_EITHER_EDGE : Nat := 0x3
def PORT_IRQ_MODE_LOGIC_0 : Nat := 0x8
def PORT_IRQ_MODE_RISING_EDGE_INT : Nat := 0x9
def PORT_IRQ_MODE_FALLING_EDGE_INT : Nat := 0xA
def PORT_IRQ_MODE_EITHER_EDGE_INT : Nat := 0xB
def PORT_IRQ_MODE_LOGIC_1 : Nat := 0xC

/-- The struct `PORT_Config_t`. -/
structure PORT_Config_t where
  pin : Nat
  mux : Nat
  pull_enable : Nat
  pull_select : Nat
  irq_mode : Nat
  deriving DecidableEq, Repr

/-- Assignment to `PORTx->PCR[pin]`. -/
def writePCR (PCR : Nat → Nat) (pin value : Nat) : Nat → Nat :=
  fun i => if i = pin then value else PCR i

/-- The function `HAL_Port_ClearMux`: the status and the PCR array of the port
afterwards. -/
def HAL_Port_ClearMux (h : PortHeader) (PORTx : Nat) (PCR : Nat → Nat)
    (pin : Nat) : Std_HAL_Status × (Nat → Nat) :=
  if NULL ≠ PORTx then
    if PIN_IS_AVAILABLE pin then
      (Std_HAL_Status.HAL_E_OK, writePCR PCR pin (PCR pin &&& not32 h.PORT_PCR_MUX_MASK))
    else
      (Std_HAL_Status.HAL_E_NOT_OK, PCR)
  else
    (Std_HAL_Status.HAL_E_NOT_OK, PCR)

/-- The function `HAL_Port_SetMux`. -/
def HAL_Port_SetMux (h : PortHeader) (PORTx : Nat) (PCR : Nat → Nat)
    (pin mux : Nat) : Std_HAL_Status × (Nat → Nat) :=
  if NULL ≠ PORTx then
    if PIN_IS_AVAILABLE pin then
      (Std_HAL_Status.HAL_E_OK, writePCR PCR pin (u32 (PCR pin ||| h.PORT_PCR_MUX mux)))
    else
      (Std_HAL_Status.HAL_E_NOT_OK, PCR)
  else
    (Std_HAL_Status.HAL_E_NOT_OK, PCR)

/-- The function `HAL_Port_EnablePull`. -/
def HAL_Port_EnablePull (h : PortHeader) (PORTx : Nat) (PCR : Nat → Nat)
    (pin : Nat) : Std_HAL_Status × (Nat → Nat) :=
  if NULL ≠ PORTx then
    if PIN_IS_AVAILABLE pin then
      (Std_HAL_Status.HAL_E_OK, writePCR PCR pin (u32 (PCR pin ||| h.PORT_PCR_PE_MASK)))
    else
      (Std_HAL_Status.HAL_E_NOT_OK, PCR)
  else
    (Std_HAL_Status.HAL_E_NOT_OK, PCR)

/-- The function `HAL_Port_DisablePull`. -/
def HAL_Port_DisablePull (h : PortHeader) (PORTx : Nat) (PCR : Nat → Nat)
    (pin : Nat) : Std_HAL_Status × (Nat → Nat) :=
  if NULL ≠ PORTx then
    if PIN_IS_AVAILABLE pin then
      (Std_HAL_Status.HAL_E_OK, writePCR PCR pin (PCR pin &&& not32 h.PORT_PCR_PE_MASK))
    else
      (Std_HAL_Status.HAL_E_NOT_OK, PCR)
  else
    (Std_HAL_Status.HAL_E_NOT_OK, PCR)

/-- The function `HAL_Port_SetPullUp`. -/
def HAL_Port_SetPullUp (h : PortHeader) (PORTx : Nat) (PCR : Nat → Nat)
    (pin : Nat) : Std_HAL_Status × (Nat → Nat) :=
  if NULL ≠ PORTx then
    if PIN_IS_AVAILABLE pin then
      (Std_HAL_Status.HAL_E_OK, writePCR PCR pin (u32 (PCR pin ||| h.PORT_PCR_PS_MASK)))
    else
      (Std_HAL_Status.HAL_E_NOT_OK, PCR)
  else
    (Std_HAL_Status.HAL_E_NOT_OK, PCR)

/-- The function `HAL_Port_SetPullDown`. -/
def HAL_Port_SetPullDown (h : PortHeader) (PORTx : Nat) (PCR : Nat → Nat)
    (pin : Nat) : Std_HAL_Status × (Nat → Nat) :=
  if NULL ≠ PORTx then
    if PIN_IS_AVAILABLE pin then
      (Std_HAL_Status.HAL_E_OK, writePCR PCR pin (PCR pin &&& not32 h.PORT_PCR_PS_MASK))
    else
      (Std_HAL_Status.HAL_E_NOT_OK, PCR)
  else
    (Std_HAL_Status.HAL_E_NOT_OK, PCR)

/-- The function `HAL_Port_ClearIrq`. -/
def HAL_Port_ClearIrq (h : PortHeader) (PORTx : Nat) (PCR : Nat → Nat)
    (pin : Nat) : Std_HAL_Status × (Nat → Nat) :=
  if NULL ≠ PORTx then
    if PIN_IS_AVAILABLE pin then
      (Std_HAL_Status.HAL_E_OK, writePCR PCR pin (PCR pin &&& not32 h.PORT_PCR_IRQC_MASK))
    else
      (Std_HAL_Status.HAL_E_NOT_OK, PCR)
  else
    (Std_HAL_Status.HAL_E_NOT_OK, PCR)

/-- The function `HAL_Port_SetIrqMode`: it ORs the mode into the register. -/
def HAL_Port_SetIrqMode (h : PortHeader) (PORTx : Nat) (PCR : Nat → Nat)
    (pin irq_mode : Nat) : Std_HAL_Status × (Nat → Nat) :=
  if NULL ≠ PORTx then
    if PIN_IS_AVAILABLE pin then
      (Std_HAL_Status.HAL_E_OK, writePCR PCR pin (u32 (PCR pin ||| h.PORT_PCR_IRQC irq_mode)))
    else
      (Std_HAL_Status.HAL_E_NOT_OK, PCR)
  else
    (Std_HAL_Status.HAL_E_NOT_OK, PCR)

/-- The function `PORT_Init`: the status and the PCR array of the port
afterwards.  A null `config` is `none`. -/
def PORT_Init (h : PortHeader) (PORTx : Nat) (PCR : Nat → Nat)
    (config : Option PORT_Config_t) : Std_PORT_Status × (Nat → Nat) :=
  let result := Std_PORT_Status.PORT_E_OK
  match config with
  | some config =>
    if NULL ≠ PORTx then
      if PIN_IS_AVAILABLE config.pin then
        /- Peripheral type configuration -/
        let PCR := (HAL_Port_ClearMux h PORTx PCR config.pin).2
        let PCR := (HAL_Port_SetMux h PORTx PCR config.pin config.mux).2
        /- Toggle pull configuration -/
        let PCR :=
          if PORT_PIN_PULL_ENABLE = config.pull_enable then
            let PCR := (HAL_Port_EnablePull h PORTx PCR config.pin).2
            if PORT_PIN_PULLUP = config.pull_select then
              (HAL_Port_SetPullUp h PORTx PCR config.pin).2
            else if PORT_PIN_PULLDOWN = config.pull_select then
              (HAL_Port_SetPullDown h PORTx PCR config.pin).2
            else
              PCR
          else if PORT_PIN_PULL_DISABLE = config.pull_enable then
            (HAL_Port_DisablePull h PORTx PCR config.pin).2
          else
            PCR
        /- Interrupt mode configuration -/
        let PCR := (HAL_Port_ClearIrq h PORTx PCR config.pin).2
        let PCR := (HAL_Port_SetIrqMode h PORTx PCR config.pin config.irq_mode).2
        (result, PCR)
      else
        (Std_PORT_Status.PORT_E_NOT_OK, PCR)
    else
      (Std_PORT_Status.PORT_E_NOT_OK, PCR)
  | none => (Std_PORT_Status.PORT_E_NOT_OK, PCR)

/-- The function `PORT_EnableInterrupt`: the status and the PCR array of the
port afterwards.  It sets ISF and calls `HAL_Port_SetIrqMode`; it does not
call `HAL_Port_ClearIrq`. -/
def PORT_EnableInterrupt (h : PortHeader) (PORTx : Nat) (PCR : Nat → Nat)
    (pin irq_mode : Nat) : Std_PORT_Status × (Nat → Nat) :=
  let result := Std_PORT_Status.PORT_E_OK
  if NULL ≠ PORTx then
    if PIN_IS_AVAILABLE pin then
      /- clear interrupt flat -/
      let PCR := writePCR PCR pin (u32 (PCR pin ||| h.PORT_PCR_ISF 1))
      let PCR := (HAL_Port_SetIrqMode h PORTx PCR pin irq_mode).2
      (result, PCR)
    else
      (Std_PORT_Status.PORT_E_NOT_OK, PCR)
  else
    (Std_PORT_Status.PORT_E_NOT_OK, PCR)

/-- The IRQC field of a PCR register. -/
def irqcOf (h : PortHeader) (pcr : Nat) : Nat :=
  fieldGet h.PORT_PCR_IRQC_SHIFT h.PORT_PCR_IRQC_MASK pcr

/-- A PCR array in which every register holds `value`. -/
def allPCR (value : Nat) : Nat → Nat := fun _ => value

/-- A configuration for pin 5: GPIO function, pull-up, interrupt on either
edge. -/
def samplePinConfig : PORT_Config_t :=
  { pin := 5, mux := 1, pull_enable := PORT_PIN_PULL_ENABLE,
    pull_select := PORT_PIN_PULLUP, irq_mode := PORT_IRQ_MODE_EITHER_EDGE_INT }

end Port

namespace Gpio

open Bits

/-- The constant of `S32K144.h` used by the GPIO driver: the base address
`PTE` of the GPIO block of port E. -/
structure GpioHeader where
  PTE : Nat

/-- The base address of PTE on the S32K144. -/
def s32k144Gpio : GpioHeader := { PTE := 0x400FF100 }

/-- The base address of PTA on the S32K144. -/
def PTA : Nat := 0x400FF000

/-- The registers of a `GPIO_Type` block. -/
structure GPIO_Type where
  PDOR : Nat
  PSOR : Nat
  PCOR : Nat
  PTOR : Nat
  PDIR : Nat
  PDDR : Nat
  PIDR : Nat
  deriving DecidableEq, Repr

/-- The enum `Std_GPIO_Status`. -/
inductive Std_GPIO_Status where
  | GPIO_E_OK
  | GPIO_E_NOT_OK
  deriving DecidableEq, Repr

/-- The enumerators of `ARM_GPIO_DIRECTION`. -/
def ARM_GPIO_INPUT : Nat := 0
def ARM_GPIO_OUTPUT : Nat := 1

/-- The constants `HAL_GPIO_INPUT` and `HAL_GPIO_OUTPUT`. -/
def HAL_GPIO_INPUT : Nat := 0
def HAL_GPIO_OUTPUT : Nat := 1

/-- The abbreviation `PIN_IS_AVAILABLE` of `s32k144_gpio_driver.c`. -/
def PIN_IS_AVAILABLE (h : GpioHeader) (pin port : Nat) : Bool :=
  pin < (if port = h.PTE then 17 else 18)

/-- The function `HAL_GPIO_SetDirection`; `pin` and `direction` arrive as
`uint8_t`. -/
def HAL_GPIO_SetDirection (r : GPIO_Type) (pin direction : Nat) : GPIO_Type :=
  let pin := pin % 256
  let direction := direction % 256
  if direction = HAL_GPIO_INPUT then
    { r with PDDR := r.PDDR &&& not32 (1 <<< pin) }
  else if direction = HAL_GPIO_OUTPUT then
    { r with PDDR := u32 (r.PDDR ||| (1 <<< pin)) }
  else
    r

/-- The function `HAL_GPIO_SetPin`. -/
def HAL_GPIO_SetPin (r : GPIO_Type) (pin : Nat) : GPIO_Type :=
  let pin := pin % 256
  { r with PSOR := u32 (r.PSOR ||| (1 <<< pin)) }

/-- The function `HAL_GPIO_ClearPin`. -/
def HAL_GPIO_ClearPin (r : GPIO_Type) (pin : Nat) : GPIO_Type :=
  let pin := pin % 256
  { r with PCOR := u32 (r.PCOR ||| (1 <<< pin)) }

/-- The function `HAL_GPIO_TogglePin`. -/
def HAL_GPIO_TogglePin (r : GPIO_Type) (pin : Nat) : GPIO_Type :=
  let pin := pin % 256
  { r with PTOR := u32 (r.PTOR ||| (1 <<< pin)) }

/-- The function `GPIO_SetDirection`: the status and the register block
afterwards. -/
def GPIO_SetDirection (h : GpioHeader) (pGPIOx : Nat) (r : GPIO_Type)
    (pin direction : Nat) : Std_GPIO_Status × GPIO_Type :=
  let result := Std_GPIO_Status.GPIO_E_OK
  if PIN_IS_AVAILABLE h pin pGPIOx ∧
      (direction = ARM_GPIO_INPUT ∨ direction = ARM_GPIO_OUTPUT) then
    (result, HAL_GPIO_SetDirection r pin direction)
  else
    (Std_GPIO_Status.GPIO_E_NOT_OK, r)

/-- The function `GPIO_SetPin`. -/
def GPIO_SetPin (h : GpioHeader) (pGPIOx : Nat) (r : GPIO_Type) (pin : Nat) :
    Std_GPIO_Status × GPIO_Type :=
  let result := Std_GPIO_Status.GPIO_E_OK
  if PIN_IS_AVAILABLE h pin pGPIOx then
    (result, HAL_GPIO_SetPin r pin)
  else
    (Std_GPIO_Status.GPIO_E_NOT_OK, r)

/-- The function `GPIO_ClearPin`. -/
def GPIO_ClearPin (h : GpioHeader) (pGPIOx : Nat) (r : GPIO_Type) (pin : Nat) :
    Std_GPIO_Status × GPIO_Type :=
  let result := Std_GPIO_Status.GPIO_E_OK
  if PIN_IS_AVAILABLE h pin pGPIOx then
    (result, HAL_GPIO_ClearPin r pin)
  else
    (Std_GPIO_Status.GPIO_E_NOT_OK, r)

/-- The function `GPIO_TogglePin`. -/
def GPIO_TogglePin (h : GpioHeader) (pGPIOx : Nat) (r : GPIO_Type) (pin : Nat) :
    Std_GPIO_Status × GPIO_Type :=
  let result := Std_GPIO_Status.GPIO_E_OK
  if PIN_IS_AVAILABLE h pin pGPIOx then
    (result, HAL_GPIO_TogglePin r pin)
  else
    (Std_GPIO_Status.GPIO_E_NOT_OK, r)

/-- A GPIO register block holding zeroes. -/
def gpioZeroRegs : GPIO_Type :=
  { PDOR := 0, PSOR := 0, PCOR := 0, PTOR := 0, PDIR := 0, PDDR := 0, PIDR := 0 }

end Gpio

namespace RingBuffer

/-! ## What the operations access -/

/-- The positions at which `queuePush` indexes `queueArr`: the old `tail`,
when the queue is not full. -/
def queuePushIndexes (queue : Std_Queue_Types) : List Nat :=
  if !QUEUE_IS_FULL queue then [queue.tail] else []

/-- The right operands of `%` that `queuePush` evaluates: `capacity`, when the
queue is not full. -/
def queuePushDivisors (queue : Std_Queue_Types) : List Nat :=
  if !QUEUE_IS_FULL queue then [queue.capacity] else []

/-- The positions at which `queuePop` indexes `queueArr`: the old `front`,
when the queue is not empty. -/
def queuePopIndexes (queue : Std_Queue_Types) : List Nat :=
  if !QUEUE_IS_EMPTY queue then [queue.front] else []

/-- The right operands of `%` that `queuePop` evaluates: `capacity`, when the
queue is not empty. -/
def queuePopDivisors (queue : Std_Queue_Types) : List Nat :=
  if !QUEUE_IS_EMPTY queue then [queue.capacity] else []

/-- A well-formed queue of capacity 4 holding one element, the byte 0. -/
def zeroFrontQueue : Std_Queue_Types :=
  { front := 0, tail := 1, size := 1, capacity := 4, queueArr := zeroBuffer }

/-- A struct value with `capacity = 0` and `size = 0`. -/
def zeroCapacityQueue : Std_Queue_Types :=
  { front := 0, tail := 0, size := 0, capacity := 0, queueArr := zeroBuffer }

end RingBuffer

namespace Lpuart

/-! The callback slots of `s32k144_lpuart_driver.c`.  A function pointer is an
address, the null pointer being 0; the array `LPUART_Callback` is a map from
slot index to function pointer. -/

/-- Assignment to `LPUART_Callback[slot]`. -/
def writeCallback (LPUART_Callback : Nat → Nat) (slot IRQHandler : Nat) : Nat → Nat :=
  fun i => if i = slot then IRQHandler else LPUART_Callback i

/-- The function `LPUART_CallbackRegister`: the status and the array
`LPUART_Callback` afterwards. -/
def LPUART_CallbackRegister (h : LpuartHeader) (LPUART_Callback : Nat → Nat)
    (pLPUARTx IRQHandler : Nat) : Std_LPUART_Status × (Nat → Nat) :=
  let status := Std_LPUART_Status.LPUART_E_NOT_OK
  if INSTANCE_IS_AVAILABLE h pLPUARTx ∧ 0 ≠ IRQHandler then
    let LPUART_Callback :=
      if h.LPUART0 = pLPUARTx then
        writeCallback LPUART_Callback 0 IRQHandler
      else if h.LPUART1 = pLPUARTx then
        writeCallback LPUART_Callback 1 IRQHandler
      else if h.LPUART2 = pLPUARTx then
        writeCallback LPUART_Callback 2 IRQHandler
      else
        /- Do nothing -/
        LPUART_Callback
    (Std_LPUART_Status.LPUART_E_OK, LPUART_Callback)
  else
    (status, LPUART_Callback)

/-- The function `LPUART0_RxTx_IRQHandler`: the function it calls, if any. -/
def LPUART0_RxTx_IRQHandler (LPUART_Callback : Nat → Nat) : Option Nat :=
  if 0 ≠ LPUART_Callback 0 then some (LPUART_Callback 0) else none

/-- The function `LPUART1_RxTx_IRQHandler`: the function it calls, if any. -/
def LPUART1_RxTx_IRQHandler (LPUART_Callback : Nat → Nat) : Option Nat :=
  if 0 ≠ LPUART_Callback 1 then some (LPUART_Callback 1) else none

/-- The function `LPUART2_RxTx_IRQHandler`: the function it calls, if any. -/
def LPUART2_RxTx_IRQHandler (LPUART_Callback : Nat → Nat) : Option Nat :=
  if 0 ≠ LPUART_Callback 2 then some (LPUART_Callback 2) else none

/-- The array `LPUART_Callback` as initialised: `{0}`. -/
def noCallbacks : Nat → Nat := fun _ => 0

/-! What the baud-rate search evaluates. -/

/-- The locals `minError`, `osrVal` and `sbrVal` as `LPUART_BaudRateConfig`
initialises them. -/
def searchStart : SearchState := { minError := 100, osrVal := 0, sbrVal := 0 }

/-- The right operands of the two `/` in the loop body at loop variable `i`:
`(i + 1) * baudRate`, a `uint32_t`, and `(i + 1) * tmpSBRval`. -/
def searchDivisors (baudRate i : Nat) : List Nat :=
  [Bits.u32 ((i + 1) * baudRate), (i + 1) * tmpSBRval baudRate i]

/-- The values of the loop variable at which the body of the `for` loop of
`LPUART_BaudRateConfig` is executed, in order; the recursion is that of
`searchLoop`, and an iteration that divides by zero is the last one. -/
def searchIterations (baudRate : Nat) : Nat → SearchState → List Nat
  | 0, _ => []
  | i + 1, s =>
    if 3 ≤ i + 1 ∧ s.minError ≠ 0 then
      (i + 1) ::
        (match searchBody baudRate (i + 1) s with
          | none => []
          | some s => searchIterations baudRate i s)
    else
      []

/-- Invariant of the `for` loop of `LPUART_BaudRateConfig` before the test of
the condition at loop variable `k`, the candidates `k < i <= 31` having been
tried, `error i` being the error of candidate `i` and `sbr i` its divider:
`minError` is a lower bound of their errors, and either nothing has been
selected (every error tried is at least 100) or the selected `osrVal` is one
of them, carries the least error, and beats every larger candidate
strictly. -/
def SearchInv (error : Nat → ℚ) (sbr : Nat → Nat) (k : Nat) (s : SearchState) : Prop :=
  (∀ i, k < i → i ≤ 31 → s.minError ≤ error i) ∧
  ((s = searchStart ∧ ∀ i, k < i → i ≤ 31 → 100 ≤ error i) ∨
    (3 ≤ s.osrVal ∧ k < s.osrVal ∧ s.osrVal ≤ 31 ∧
      s.minError = error s.osrVal ∧
      s.sbrVal = sbr s.osrVal ∧
      s.minError < 100 ∧
      ∀ i, s.osrVal < i → i ≤ 31 → s.minError < error i))

/-- A configuration that `LPUART_CheckHandleValidation` accepts: that of
`sampleLpuartConfig` for 8-bit frames, at 3,000,000 baud. -/
def fastLpuartConfig : LPUART_Config_Type :=
  { sampleLpuartConfig LPUART_FRAME_8BITS with baudRate := 3000000 }

/-- A handle for LPUART0 with `fastLpuartConfig`. -/
def fastHandle : LPUART_Handle_Type :=
  { pLPUARTx := s32k144Lpuart.LPUART0, LPUART_Config := fastLpuartConfig }

end Lpuart

namespace Port

/-! The callback slots of `s32k144_port_driver.c`: the array
`PORT_callback_func_arr` is a map from slot index to function pointer. -/

/-- Assignment to `PORT_callback_func_arr[slot]`. -/
def writeHandler (PORT_callback_func_arr : Nat → Nat) (slot App_Function : Nat) :
    Nat → Nat :=
  fun i => if i = slot then App_Function else PORT_callback_func_arr i

/-- The function `Register_InterruptHandler`: the status and the array
`PORT_callback_func_arr` afterwards.  The innermost `else` does nothing and
leaves `result` at `PORT_E_OK`. -/
def Register_InterruptHandler (h : PortHeader) (PORT_callback_func_arr : Nat → Nat)
    (PORTx App_Function : Nat) : Std_PORT_Status × (Nat → Nat) :=
  let result := Std_PORT_Status.PORT_E_OK
  if NULL ≠ PORTx then
    if NULL ≠ App_Function then
      if PORTx = h.PORTA then
        (result, writeHandler PORT_callback_func_arr 0 App_Function)
      else if PORTx = h.PORTB then
        (result, writeHandler PORT_callback_func_arr 1 App_Function)
      else if PORTx = h.PORTC then
        (result, writeHandler PORT_callback_func_arr 2 App_Function)
      else if PORTx = h.PORTD then
        (result, writeHandler PORT_callback_func_arr 3 App_Function)
      else if PORTx = h.PORTE then
        (result, writeHandler PORT_callback_func_arr 4 App_Function)
      else
        /- do nothing -/
        (result, PORT_callback_func_arr)
    else
      (Std_PORT_Status.PORT_E_NOT_OK, PORT_callback_func_arr)
  else
    (Std_PORT_Status.PORT_E_NOT_OK, PORT_callback_func_arr)

/-- The array `PORT_callback_func_arr` as initialised: `{NULL}`. -/
def noHandlers : Nat → Nat := fun _ => 0

/-- A non-null pointer that is none of PORTA..PORTE: the base address of the
GPIO block PTA. -/
def strayPort : Nat := 0x400FF000

/-- The address of an application callback. -/
def sampleHandler : Nat := 0x00001235

end Port

namespace RingBuffer

/-! ## Arithmetic of the wrapping index -/

/-- An index below `c` advanced by at most `c` wraps at most once. -/
theorem add_mod_wrap {f i c : Nat} (hf : f < c) (hi : i ≤ c) :
    (f + i) % c = if f + i < c then f + i else f + i - c := by
  split
  · next h => exact Nat.mod_eq_of_lt h
  · next h =>
    have h1 : c ≤ f + i := Nat.le_of_not_lt h
    rw [Nat.mod_eq_sub_mod h1]
    exact Nat.mod_eq_of_lt (by omega)

/-- Advancing a wrapped index by one and wrapping again is advancing by one. -/
theorem succ_mod_add_mod (f i c : Nat) :
    ((f + 1) % c + i) % c = (f + (i + 1)) % c := by
  rw [Nat.mod_add_mod]
  congr 1
  omega

/-! ## The two branches of each operation -/

theorem queuePush_full (q : Std_Queue_Types) (v : Nat) (h : q.size = q.capacity) :
    queuePush q v = q := by
  simp [queuePush, QUEUE_IS_FULL, h]

theorem queuePush_not_full (q : Std_Queue_Types) (v : Nat) (h : q.size ≠ q.capacity) :
    queuePush q v =
      { q with
        queueArr := fun i => if i = q.tail then v else q.queueArr i
        tail := ((q.tail + 1) % q.capacity) % 256
        size := (q.size + 1) % 256 } := by
  simp [queuePush, QUEUE_IS_FULL, h]

theorem queuePop_empty (q : Std_Queue_Types) (h : q.size = 0) :
    queuePop q = (0, q) := by
  simp [queuePop, QUEUE_IS_EMPTY, h]

theorem queuePop_not_empty (q : Std_Queue_Types) (h : q.size ≠ 0) :
    queuePop q =
      (q.queueArr q.front,
        { q with
          front := ((q.front + 1) % q.capacity) % 256
          size := (q.size + 255) % 256 }) := by
  simp [queuePop, QUEUE_IS_EMPTY, h]

/-! ## The representation relation is kept by both operations -/

theorem holds_of_empty (q : Std_Queue_Types) (hc1 : 1 ≤ q.capacity)
    (hc2 : q.capacity ≤ 255) (hs : q.size = 0) (hf : q.front < q.capacity)
    (ht : q.tail = q.front) : Holds q [] := by
  refine ⟨hc1, hc2, by simpa using hs, by omega, hf, ?_, ?_⟩
  · rw [ht, hs, Nat.add_zero, Nat.mod_eq_of_lt hf]
  · intro i hi
    simp at hi

theorem holds_push (q : Std_Queue_Types) (l : List Nat) (v : Nat)
    (h : Holds q l) (hlen : l.length < q.capacity) :
    Holds (queuePush q v) (l ++ [v]) := by
  obtain ⟨hc1, hc2, hs, hsc, hf, ht, hmem⟩ := h
  have hne : q.size ≠ q.capacity := by omega
  rw [queuePush_not_full q v hne]
  have htl : q.tail < q.capacity := by
    rw [ht]; exact Nat.mod_lt _ (by omega)
  have hs1 : (q.size + 1) % 256 = q.size + 1 := Nat.mod_eq_of_lt (by omega)
  have ht1 : (q.tail + 1) % q.capacity < q.capacity := Nat.mod_lt _ (by omega)
  refine ⟨hc1, hc2, ?_, ?_, hf, ?_, ?_⟩
  · simp only [List.length_append, List.length_singleton]
    omega
  · simp only
    omega
  · simp only
    rw [hs1, Nat.mod_eq_of_lt (by omega : (q.tail + 1) % q.capacity < 256), ht,
      Nat.mod_add_mod]
    rfl
  · intro i hi
    simp only [List.length_append, List.length_singleton] at hi
    simp only
    by_cases hil : i < l.length
    · have hne2 : (q.front + i) % q.capacity ≠ q.tail := by
        rw [ht, add_mod_wrap hf (by omega : i ≤ q.capacity),
          add_mod_wrap hf hsc]
        split <;> split <;> omega
      rw [if_neg hne2, List.getElem?_append_left hil]
      exact hmem i hil
    · have hie : i = l.length := by omega
      subst hie
      have : (q.front + l.length) % q.capacity = q.tail := by rw [ht, hs]
      rw [if_pos this]
      simp

theorem holds_pop (q : Std_Queue_Types) (a : Nat) (l : List Nat)
    (h : Holds q (a :: l)) :
    (queuePop q).1 = a ∧ Holds (queuePop q).2 l := by
  obtain ⟨hc1, hc2, hs, hsc, hf, ht, hmem⟩ := h
  simp only [List.length_cons] at hs
  have hne : q.size ≠ 0 := by omega
  rw [queuePop_not_empty q hne]
  have hf1 : (q.front + 1) % q.capacity < q.capacity := Nat.mod_lt _ (by omega)
  have hf256 : ((q.front + 1) % q.capacity) % 256 = (q.front + 1) % q.capacity :=
    Nat.mod_eq_of_lt (by omega)
  have hs1 : (q.size + 255) % 256 = l.length := by omega
  refine ⟨?_, hc1, hc2, ?_, ?_, ?_, ?_, ?_⟩
  · have h0 := hmem 0 (by simp)
    simp only [List.getElem?_cons_zero, Nat.add_zero, Nat.mod_eq_of_lt hf,
      Option.some.injEq] at h0
    exact h0.symm
  · exact hs1
  · simp only
    omega
  · simp only
    rw [hf256]
    exact hf1
  · simp only
    rw [hf256, hs1, succ_mod_add_mod, ht, hs]
  · intro i hi
    simp only
    rw [hf256, succ_mod_add_mod]
    have := hmem (i + 1) (by simp; omega)
    simpa using this

/-! ## Runs of calls -/

theorem queuePush_capacity (q : Std_Queue_Types) (v : Nat) :
    (queuePush q v).capacity = q.capacity := by
  unfold queuePush
  split <;> rfl

theorem queuePush_front (q : Std_Queue_Types) (v : Nat) :
    (queuePush q v).front = q.front := by
  unfold queuePush
  split <;> rfl

theorem queuePop_capacity (q : Std_Queue_Types) :
    (queuePop q).2.capacity = q.capacity := by
  unfold queuePop
  split <;> rfl

theorem queuePop_tail (q : Std_Queue_Types) :
    (queuePop q).2.tail = q.tail := by
  unfold queuePop
  split <;> rfl

theorem queuePush_size_le (q : Std_Queue_Types) (v : Nat)
    (h : q.size ≤ q.capacity) : (queuePush q v).size ≤ q.capacity := by
  by_cases hfull : q.size = q.capacity
  · rw [queuePush_full q v hfull]; exact h
  · rw [queuePush_not_full q v hfull]
    simp only
    omega

theorem pushAll_capacity (q : Std_Queue_Types) (vs : List Nat) :
    (pushAll q vs).capacity = q.capacity := by
  induction vs generalizing q with
  | nil => rfl
  | cons v vs ih =>
    show (pushAll (queuePush q v) vs).capacity = q.capacity
    rw [ih, queuePush_capacity]

theorem pushAll_size_le (q : Std_Queue_Types) (vs : List Nat)
    (h : q.size ≤ q.capacity) : (pushAll q vs).size ≤ q.capacity := by
  induction vs generalizing q with
  | nil => exact h
  | cons v vs ih =>
    show (pushAll (queuePush q v) vs).size ≤ q.capacity
    have h1 := queuePush_size_le q v h
    have h2 := ih (queuePush q v) (by rw [queuePush_capacity]; exact h1)
    rwa [queuePush_capacity] at h2

theorem holds_pushAll (q : Std_Queue_Types) (l vs : List Nat) (h : Holds q l)
    (hlen : l.length + vs.length ≤ q.capacity) :
    Holds (pushAll q vs) (l ++ vs) := by
  induction vs generalizing q l with
  | nil => simpa [pushAll] using h
  | cons v vs ih =>
    simp only [List.length_cons] at hlen
    show Holds (pushAll (queuePush q v) vs) (l ++ v :: vs)
    have h1 := holds_push q l v h (by omega)
    have h2 := ih (queuePush q v) (l ++ [v]) h1
      (by rw [queuePush_capacity]; simp only [List.length_append, List.length_singleton]; omega)
    simpa using h2

theorem holds_popN (q : Std_Queue_Types) (l : List Nat) (h : Holds q l) :
    (popN l.length q).1 = l ∧ Holds (popN l.length q).2 [] := by
  induction l generalizing q with
  | nil => exact ⟨rfl, h⟩
  | cons a l ih =>
    obtain ⟨ha, hrest⟩ := holds_pop q a l h
    obtain ⟨h1, h2⟩ := ih (queuePop q).2 hrest
    refine ⟨?_, h2⟩
    show (queuePop q).1 :: (popN l.length (queuePop q).2).1 = a :: l
    rw [ha, h1]

theorem holds_refPush (q : Std_Queue_Types) (l : List Nat) (v : Nat)
    (h : Holds q l) : Holds (queuePush q v) (refPush q.capacity l v) := by
  unfold refPush
  split
  · next hfull =>
    have hs : q.size = q.capacity := by rw [h.2.2.1, hfull]
    rw [queuePush_full q v hs]
    exact h
  · next hnot =>
    have hle : l.length ≤ q.capacity := by
      have := h.2.2.2.1
      rw [h.2.2.1] at this
      exact this
    exact holds_push q l v h (by omega)

theorem holds_refPop (q : Std_Queue_Types) (l : List Nat) (h : Holds q l) :
    (queuePop q).1 = (refPop l).1 ∧ Holds (queuePop q).2 (refPop l).2 := by
  cases l with
  | nil =>
    have hs : q.size = 0 := by simpa using h.2.2.1
    rw [queuePop_empty q hs]
    exact ⟨rfl, h⟩
  | cons a l => exact holds_pop q a l h

theorem holds_runCalls (q : Std_Queue_Types) (l : List Nat) (cs : List Call)
    (h : Holds q l) :
    (runCalls q cs).1 = (refRun q.capacity l cs).1 ∧
      Holds (runCalls q cs).2 (refRun q.capacity l cs).2 := by
  induction cs generalizing q l with
  | nil => exact ⟨rfl, h⟩
  | cons c cs ih =>
    cases c with
    | push v =>
      have h1 := holds_refPush q l v h
      have h2 := ih (queuePush q v) (refPush q.capacity l v) h1
      rw [queuePush_capacity] at h2
      exact h2
    | pop =>
      obtain ⟨ha, hrest⟩ := holds_refPop q l h
      obtain ⟨h1, h2⟩ := ih (queuePop q).2 (refPop l).2 hrest
      rw [queuePop_capacity] at h1 h2
      refine ⟨?_, h2⟩
      show (queuePop q).1 :: (runCalls (queuePop q).2 cs).1 =
        (refPop l).1 :: (refRun q.capacity (refPop l).2 cs).1
      rw [ha, h1]

/-! ## The properties of the specification -/

/-- Claim C1, FIFO ordering: on a queue with `1 ≤ capacity ≤ 255`, `size = 0`
and `front = tail < capacity`, pushing `v1, ..., vN` with `N ≤ capacity` and
then popping `N` times returns `v1, ..., vN` in that order and ends with
`size = 0`.  The accesses stay below `capacity`, which is all the buffer
length is needed for. -/
theorem fifo_ordering (q : Std_Queue_Types) (vs : List Nat)
    (hc1 : 1 ≤ q.capacity) (hc2 : q.capacity ≤ 255) (hs : q.size = 0)
    (hft : q.front = q.tail) (ht : q.tail < q.capacity)
    (hN : vs.length ≤ q.capacity) :
    (popN vs.length (pushAll q vs)).1 = vs ∧
      (popN vs.length (pushAll q vs)).2.size = 0 := by
  have h0 : Holds q [] := holds_of_empty q hc1 hc2 hs (by omega) hft.symm
  have h1 : Holds (pushAll q vs) vs := by
    simpa using holds_pushAll q [] vs h0 (by simpa using hN)
  obtain ⟨h2, h3⟩ := holds_popN (pushAll q vs) vs h1
  exact ⟨h2, by simpa using h3.2.2.1⟩

theorem fifo_ordering_witness :
    (1 ≤ emptyQueueAtEnd.capacity ∧ emptyQueueAtEnd.capacity ≤ 255 ∧
      emptyQueueAtEnd.size = 0 ∧ emptyQueueAtEnd.front = emptyQueueAtEnd.tail ∧
      emptyQueueAtEnd.tail < emptyQueueAtEnd.capacity ∧
      [7, 0, 255, 7].length ≤ emptyQueueAtEnd.capacity) ∧
    (popN 4 (pushAll emptyQueueAtEnd [7, 0, 255, 7])).1 = [7, 0, 255, 7] ∧
      (popN 4 (pushAll emptyQueueAtEnd [7, 0, 255, 7])).2.size = 0 :=
  ⟨by decide,
    fifo_ordering emptyQueueAtEnd [7, 0, 255, 7] (by decide) (by decide) (by decide)
      (by decide) (by decide) (by decide)⟩

/-- Claim C2, wrap-around correctness as a refinement: for every finite
sequence of `queuePush`/`queuePop` calls run on a well-formed empty queue
(`capacity ≥ 1`, a `uint8_t`; `size = 0`; `front = tail < capacity`), the
values returned by the pops are those of the reference bounded FIFO list run
on the same calls, and after every call (every initial segment of the
sequence) `size` is the length of the reference list. -/
theorem wraparound_refinement (q : Std_Queue_Types) (cs : List Call)
    (hc1 : 1 ≤ q.capacity) (hc2 : q.capacity ≤ 255) (hs : q.size = 0)
    (hft : q.front = q.tail) (ht : q.tail < q.capacity) :
    (runCalls q cs).1 = (refRun q.capacity [] cs).1 ∧
      ∀ n, (runCalls q (cs.take n)).2.size =
        (refRun q.capacity [] (cs.take n)).2.length := by
  have h0 : Holds q [] := holds_of_empty q hc1 hc2 hs (by omega) hft.symm
  refine ⟨(holds_runCalls q [] cs h0).1, fun n => ?_⟩
  exact (holds_runCalls q [] (cs.take n) h0).2.2.2.1

theorem wraparound_refinement_witness :
    (1 ≤ (emptyQueue 4).capacity ∧ (emptyQueue 4).capacity ≤ 255 ∧
      (emptyQueue 4).size = 0 ∧ (emptyQueue 4).front = (emptyQueue 4).tail ∧
      (emptyQueue 4).tail < (emptyQueue 4).capacity) ∧
    (1 ≤ (emptyQueue 3).capacity ∧ (emptyQueue 3).capacity ≤ 255 ∧
      (emptyQueue 3).size = 0 ∧ (emptyQueue 3).front = (emptyQueue 3).tail ∧
      (emptyQueue 3).tail < (emptyQueue 3).capacity) ∧
    ((runCalls (emptyQueue 4) scenarioWrap).1 = (refRun 4 [] scenarioWrap).1 ∧
      (runCalls (emptyQueue 4) scenarioWrap).1 = [65, 66, 67, 68, 69]) ∧
    ((runCalls (emptyQueue 3) scenarioEndToEnd).1 = (refRun 3 [] scenarioEndToEnd).1 ∧
      (runCalls (emptyQueue 3) scenarioEndToEnd).1 = [1, 2, 3, 4, 0] ∧
      (runCalls (emptyQueue 3) (scenarioEndToEnd.take 3)).2.size = 3 ∧
      (runCalls (emptyQueue 3) (scenarioEndToEnd.take 4)).2.size = 3 ∧
      (runCalls (emptyQueue 3) (scenarioEndToEnd.take 9)).2.size = 0) :=
  ⟨by decide, by decide,
   ⟨(wraparound_refinement (emptyQueue 4) scenarioWrap (by decide) (by decide)
        (by decide) (by decide) (by decide)).1, by decide⟩,
   ⟨(wraparound_refinement (emptyQueue 3) scenarioEndToEnd (by decide) (by decide)
        (by decide) (by decide) (by decide)).1, by decide, by decide, by decide,
      by decide⟩⟩

/-- Claim C3, capacity bound: from a queue with `size ≤ capacity`, after every
sequence of `queuePush` calls (any values) `size ≤ capacity` still holds, the
capacity being unchanged; and whenever `size = capacity` has been reached, the
next `queuePush` returns the very same state (front, tail, size and every cell
of the buffer). -/
theorem capacity_bound (q : Std_Queue_Types) (vs : List Nat)
    (h : q.size ≤ q.capacity) :
    (pushAll q vs).capacity = q.capacity ∧
      (pushAll q vs).size ≤ q.capacity ∧
      ∀ v, (pushAll q vs).size = q.capacity →
        queuePush (pushAll q vs) v = pushAll q vs := by
  refine ⟨pushAll_capacity q vs, pushAll_size_le q vs h, fun v hfull => ?_⟩
  exact queuePush_full _ v (by rw [hfull, pushAll_capacity])

theorem capacity_bound_witness :
    partQueue.size ≤ partQueue.capacity ∧
    (pushAll partQueue [1, 2, 3, 4, 5]).capacity = 4 ∧
      (pushAll partQueue [1, 2, 3, 4, 5]).size ≤ 4 ∧
      ∀ v, (pushAll partQueue [1, 2, 3, 4, 5]).size = 4 →
        queuePush (pushAll partQueue [1, 2, 3, 4, 5]) v =
          pushAll partQueue [1, 2, 3, 4, 5] :=
  ⟨by decide, capacity_bound partQueue [1, 2, 3, 4, 5] (by decide)⟩

/-- Claim C4 as stated fails: `oversizedQueue` has `capacity = 1`,
`size = 255 ≠ capacity` and `tail = 0 < capacity`; `queuePush` takes the
not-full branch and the 8-bit `size` wraps to 0, which is not `255 + 1`. -/
theorem push_size_wraps_counterexample :
    1 ≤ oversizedQueue.capacity ∧ oversizedQueue.capacity ≤ 255 ∧
      oversizedQueue.size ≠ oversizedQueue.capacity ∧
      oversizedQueue.tail < oversizedQueue.capacity ∧
      oversizedQueue.size ≤ 255 ∧
      (queuePush oversizedQueue 7).size = 0 ∧
      (queuePush oversizedQueue 7).size ≠ oversizedQueue.size + 1 := by
  decide

/-- Claim C4, amended, push on a non-full queue: for every queue state with
`1 ≤ capacity ≤ 255`, `size ≠ capacity` and `tail < capacity` and every value,
`queuePush` produces a state in which `storage[old tail] = value`,
`tail = (old tail + 1) mod capacity` (no 8-bit wrap-around) and
`size = (old size + 1) mod 256`, which is `old size + 1` unless
`old size = 255`. -/
theorem push_not_full (q : Std_Queue_Types) (v : Nat)
    (hc1 : 1 ≤ q.capacity) (hc2 : q.capacity ≤ 255)
    (hs : q.size ≠ q.capacity) (_ht : q.tail < q.capacity) :
    (queuePush q v).queueArr q.tail = v ∧
      (queuePush q v).tail = (q.tail + 1) % q.capacity ∧
      (queuePush q v).size = (q.size + 1) % 256 ∧
      (q.size < 255 → (queuePush q v).size = q.size + 1) := by
  rw [queuePush_not_full q v hs]
  have h1 : (q.tail + 1) % q.capacity < q.capacity := Nat.mod_lt _ (by omega)
  refine ⟨by simp, Nat.mod_eq_of_lt (by omega), rfl, fun h => ?_⟩
  exact Nat.mod_eq_of_lt (by omega)

theorem push_not_full_witness :
    (1 ≤ partQueue.capacity ∧ partQueue.capacity ≤ 255 ∧
      partQueue.size ≠ partQueue.capacity ∧ partQueue.tail < partQueue.capacity) ∧
    (queuePush partQueue 9).queueArr 0 = 9 ∧
      (queuePush partQueue 9).tail = 1 ∧
      (queuePush partQueue 9).size = 3 ∧
      (partQueue.size < 255 → (queuePush partQueue 9).size = 3) :=
  ⟨by decide,
    push_not_full partQueue 9 (by decide) (by decide) (by decide) (by decide)⟩

/-- Claim C5, push on a full queue is a no-op: when `size = capacity`,
`queuePush` returns the state it was given: front, tail, size, capacity and
every cell of the buffer are as before, so the value is discarded and the
oldest element is not overwritten. -/
theorem push_full_noop (q : Std_Queue_Types) (v : Nat)
    (h : q.size = q.capacity) :
    queuePush q v = q ∧ ∀ i, (queuePush q v).queueArr i = q.queueArr i := by
  rw [queuePush_full q v h]
  exact ⟨rfl, fun _ => rfl⟩

theorem push_full_noop_witness :
    fullQueue.size = fullQueue.capacity ∧
    queuePush fullQueue 9 = fullQueue ∧
      ∀ i, (queuePush fullQueue 9).queueArr i = fullQueue.queueArr i :=
  ⟨by decide, push_full_noop fullQueue 9 (by decide)⟩

/-- Claim C6, pop on a non-empty queue: for every queue state (`uint8_t`
fields) with `1 ≤ capacity ≤ 255`, `size ≠ 0` and `front < capacity`,
`queuePop` returns `storage[old front]`, sets
`front = (old front + 1) mod capacity` and `size = old size - 1`, and leaves
`tail`, `capacity` and every cell of the buffer unchanged. -/
theorem pop_not_empty (q : Std_Queue_Types)
    (hc1 : 1 ≤ q.capacity) (hc2 : q.capacity ≤ 255)
    (hs : q.size ≠ 0) (hs8 : q.size ≤ 255) (_hf : q.front < q.capacity) :
    (queuePop q).1 = q.queueArr q.front ∧
      (queuePop q).2.front = (q.front + 1) % q.capacity ∧
      (queuePop q).2.size = q.size - 1 ∧
      (queuePop q).2.tail = q.tail ∧
      (queuePop q).2.capacity = q.capacity ∧
      (queuePop q).2.queueArr = q.queueArr := by
  rw [queuePop_not_empty q hs]
  have h1 : (q.front + 1) % q.capacity < q.capacity := Nat.mod_lt _ (by omega)
  refine ⟨rfl, Nat.mod_eq_of_lt (by omega), ?_, rfl, rfl, rfl⟩
  show (q.size + 255) % 256 = q.size - 1
  omega

theorem pop_not_empty_witness :
    (1 ≤ partQueue.capacity ∧ partQueue.capacity ≤ 255 ∧ partQueue.size ≠ 0 ∧
      partQueue.size ≤ 255 ∧ partQueue.front < partQueue.capacity) ∧
    (queuePop partQueue).1 = 12 ∧
      (queuePop partQueue).2.front = 3 ∧
      (queuePop partQueue).2.size = 1 ∧
      (queuePop partQueue).2.tail = 0 ∧
      (queuePop partQueue).2.capacity = 4 ∧
      (queuePop partQueue).2.queueArr = sampleBuffer :=
  ⟨by decide,
    pop_not_empty partQueue (by decide) (by decide) (by decide) (by decide) (by decide)⟩

/-- Claim C7, pop on an empty queue: when `size = 0`, whatever `front`, `tail`
and `capacity` are, `queuePop` returns the sentinel 0 and the state it was
given (front, tail, size, capacity and buffer unchanged). -/
theorem pop_empty_sentinel (q : Std_Queue_Types) (h : q.size = 0) :
    (queuePop q).1 = 0 ∧ (queuePop q).2 = q := by
  rw [queuePop_empty q h]
  exact ⟨rfl, rfl⟩

theorem pop_empty_sentinel_witness :
    emptyQueueAtEnd.size = 0 ∧
    (queuePop emptyQueueAtEnd).1 = 0 ∧ (queuePop emptyQueueAtEnd).2 = emptyQueueAtEnd :=
  ⟨by decide, pop_empty_sentinel emptyQueueAtEnd (by decide)⟩

/-- Claim C8, at a failing input: `queueInit` on a struct whose prior content is
`front = 0`, `tail = 2`, `size = 3` binds the buffer and the capacity 4 and
leaves `front`, `tail` and `size` as they were, not zero. -/
theorem queueInit_keeps_prior_indices :
    (queueInit usedQueue sampleBuffer 4).capacity = 4 ∧
      (queueInit usedQueue sampleBuffer 4).queueArr = sampleBuffer ∧
      (queueInit usedQueue sampleBuffer 4).front = 0 ∧
      (queueInit usedQueue sampleBuffer 4).tail = 2 ∧
      (queueInit usedQueue sampleBuffer 4).size = 3 :=
  ⟨rfl, rfl, rfl, rfl, rfl⟩

/-- Claim C9, at a failing input: after `queueInit usedQueue sampleBuffer 4`
the immediate `queuePop` does not find the queue empty: it returns the cell at
offset 0 (the byte 10) and moves `front` to 1 with `size = 2`; after
`queuePush 7` the next `queuePop` returns 11, not 7, and `size` is 2, not 0. -/
theorem round_trip_after_queueInit_fails :
    (queuePop (queueInit usedQueue sampleBuffer 4)).1 = 10 ∧
      (queuePop (queueInit usedQueue sampleBuffer 4)).2.front = 1 ∧
      (queuePop (queueInit usedQueue sampleBuffer 4)).2.size = 2 ∧
      (queuePop (queuePush (queuePop (queueInit usedQueue sampleBuffer 4)).2 7)).1 = 11 ∧
      (queuePop (queuePush (queuePop (queueInit usedQueue sampleBuffer 4)).2 7)).2.size = 2 := by
  decide

/-- Claim C10, index range invariant: when `capacity > 0`, `front < capacity`
and `tail < capacity`, the state after `queuePush` (any value) and the state
after `queuePop` again have `front < capacity` and `tail < capacity`. -/
theorem index_range_invariant (q : Std_Queue_Types) (v : Nat)
    (hc : 0 < q.capacity) (hf : q.front < q.capacity) (ht : q.tail < q.capacity) :
    ((queuePush q v).front < (queuePush q v).capacity ∧
        (queuePush q v).tail < (queuePush q v).capacity) ∧
      ((queuePop q).2.front < (queuePop q).2.capacity ∧
        (queuePop q).2.tail < (queuePop q).2.capacity) := by
  have hmod : ∀ x, (x % q.capacity) % 256 < q.capacity := fun x =>
    Nat.lt_of_le_of_lt (Nat.mod_le _ _) (Nat.mod_lt _ hc)
  refine ⟨⟨?_, ?_⟩, ⟨?_, ?_⟩⟩
  · rw [queuePush_front, queuePush_capacity]; exact hf
  · rw [queuePush_capacity]
    by_cases hfull : q.size = q.capacity
    · rw [queuePush_full q v hfull]; exact ht
    · rw [queuePush_not_full q v hfull]; exact hmod _
  · rw [queuePop_capacity]
    by_cases hemp : q.size = 0
    · rw [queuePop_empty q hemp]; exact hf
    · rw [queuePop_not_empty q hemp]; exact hmod _
  · rw [queuePop_tail, queuePop_capacity]; exact ht

theorem index_range_invariant_witness :
    (0 < emptyQueueAtEnd.capacity ∧ emptyQueueAtEnd.front < emptyQueueAtEnd.capacity ∧
      emptyQueueAtEnd.tail < emptyQueueAtEnd.capacity) ∧
    ((queuePush emptyQueueAtEnd 5).front < (queuePush emptyQueueAtEnd 5).capacity ∧
        (queuePush emptyQueueAtEnd 5).tail < (queuePush emptyQueueAtEnd 5).capacity) ∧
      ((queuePop emptyQueueAtEnd).2.front < (queuePop emptyQueueAtEnd).2.capacity ∧
        (queuePop emptyQueueAtEnd).2.tail < (queuePop emptyQueueAtEnd).2.capacity) :=
  ⟨by decide,
    index_range_invariant emptyQueueAtEnd 5 (by decide) (by decide) (by decide)⟩

end RingBuffer

namespace Pcc

/-! ## PCC: clock source and divider selection -/

/-- The status of `PCC_Clock_Source_Select` is `PCC_E_NOT_OK` exactly when the
CGC bit of the register is set. -/
theorem clock_source_select_status (h : PccHeader) (PCCn : Nat → Nat)
    (peripheralIndex source : Nat) :
    (PCC_Clock_Source_Select h PCCn peripheralIndex source).1 =
        Std_PCC_Status.PCC_E_NOT_OK ↔
      PCCn peripheralIndex &&& h.PCC_PCCn_CGC_MASK ≠ 0 := by
  unfold PCC_Clock_Source_Select
  by_cases hc : PCCn peripheralIndex &&& h.PCC_PCCn_CGC_MASK = 0 <;> simp [hc]

/-- The status of `PCC_Clock_Divider_Select` is `PCC_E_NOT_OK` exactly when
`divider > PCD_DIVIDE_BY_8`, or the CGC bit is set, or
`divider == PCD_DIVIDE_BY_1` with `fraction != PCD_FRACTIONAL_VALUE_0`. -/
theorem clock_divider_select_status (h : PccHeader) (PCCn : Nat → Nat)
    (peripheralIndex divider fraction : Nat) :
    (PCC_Clock_Divider_Select h PCCn peripheralIndex divider fraction).1 =
        Std_PCC_Status.PCC_E_NOT_OK ↔
      (divider > PCD_DIVIDE_BY_8 ∨ PCCn peripheralIndex &&& h.PCC_PCCn_CGC_MASK ≠ 0 ∨
        (divider = PCD_DIVIDE_BY_1 ∧ fraction ≠ PCD_FRACTIONAL_VALUE_0)) := by
  unfold PCC_Clock_Divider_Select
  simp only
  by_cases h1 : divider > PCD_DIVIDE_BY_8 ∨ PCCn peripheralIndex &&& h.PCC_PCCn_CGC_MASK ≠ 0
  · rw [if_pos h1]
    refine ⟨fun _ => ?_, fun _ => rfl⟩
    rcases h1 with h1 | h1
    · exact Or.inl h1
    · exact Or.inr (Or.inl h1)
  · rw [if_neg h1]
    have h2 := not_or.mp h1
    by_cases h3 : divider = PCD_DIVIDE_BY_1 ∧ fraction ≠ PCD_FRACTIONAL_VALUE_0
    · rw [if_pos h3]
      exact ⟨fun _ => Or.inr (Or.inr h3), fun _ => rfl⟩
    · rw [if_neg h3]
      constructor
      · intro hx; cases hx
      · rintro (hx | hx | hx)
        · exact absurd hx h2.1
        · exact absurd hx h2.2
        · exact absurd hx h3

/-- Claim C11, at a failing input: with the CGC bit of `PCCn[index]` set
(register `0x40000000`) and source `CLOCK_OPTION_1`,
`PCC_Clock_Source_Select` returns `PCC_E_NOT_OK` and the register is changed
all the same: the HAL function has cleared CGC and written the source, leaving
`0x01000000`. -/
theorem clock_source_select_changes_enabled_register :
    allPCCn 0x40000000 sampleIndex &&& s32k144Pcc.PCC_PCCn_CGC_MASK ≠ 0 ∧
      (PCC_Clock_Source_Select s32k144Pcc (allPCCn 0x40000000) sampleIndex
        CLOCK_OPTION_1).1 = Std_PCC_Status.PCC_E_NOT_OK ∧
      (PCC_Clock_Source_Select s32k144Pcc (allPCCn 0x40000000) sampleIndex
        CLOCK_OPTION_1).2 sampleIndex = 0x01000000 ∧
      (PCC_Clock_Source_Select s32k144Pcc (allPCCn 0x40000000) sampleIndex
        CLOCK_OPTION_1).2 sampleIndex ≠ allPCCn 0x40000000 sampleIndex := by
  decide

/-- Claim C20, at two failing inputs.  With register 0, `PCD_DIVIDE_BY_1` and
`PCD_FRACTIONAL_VALUE_1`, `PCC_Clock_Divider_Select` returns `PCC_E_NOT_OK`
and the register becomes 8 (the fraction bit).  With the CGC bit set (register
`0x40000000`), `PCD_DIVIDE_BY_1` and `PCD_FRACTIONAL_VALUE_0`, it returns
`PCC_E_NOT_OK` and the register becomes 0 (CGC cleared). -/
theorem clock_divider_select_changes_register_on_failure :
    ((PCC_Clock_Divider_Select s32k144Pcc (allPCCn 0) sampleIndex PCD_DIVIDE_BY_1
        PCD_FRACTIONAL_VALUE_1).1 = Std_PCC_Status.PCC_E_NOT_OK ∧
      (PCC_Clock_Divider_Select s32k144Pcc (allPCCn 0) sampleIndex PCD_DIVIDE_BY_1
        PCD_FRACTIONAL_VALUE_1).2 sampleIndex = 8 ∧
      allPCCn 0 sampleIndex = 0) ∧
    ((PCC_Clock_Divider_Select s32k144Pcc (allPCCn 0x40000000) sampleIndex PCD_DIVIDE_BY_1
        PCD_FRACTIONAL_VALUE_0).1 = Std_PCC_Status.PCC_E_NOT_OK ∧
      (PCC_Clock_Divider_Select s32k144Pcc (allPCCn 0x40000000) sampleIndex PCD_DIVIDE_BY_1
        PCD_FRACTIONAL_VALUE_0).2 sampleIndex = 0 ∧
      allPCCn 0x40000000 sampleIndex = 0x40000000) := by
  decide

end Pcc

namespace Lpuart

/-! ## LPUART -/

theorem instance_is_available_iff (h : LpuartHeader) (p : Nat) :
    INSTANCE_IS_AVAILABLE h p = true ↔ p = h.LPUART0 ∨ p = h.LPUART1 ∨ p = h.LPUART2 := by
  simp [INSTANCE_IS_AVAILABLE, or_assoc]

theorem max_baudrate_eq : MAX_BAUDRATE = 12000000 := by decide

/-- The value returned by `LPUART_RxMultiFrame` is 0 on every input. -/
theorem rx_multi_frame_returns_zero (h : LpuartHeader) (pLPUARTx : Nat)
    (incoming pRxBuffer : Nat → Nat) (len : Nat) :
    (LPUART_RxMultiFrame h pLPUARTx incoming pRxBuffer len).1 = 0 := by
  unfold LPUART_RxMultiFrame
  split <;> rfl

/-- Claim C13, at a failing input: for LPUART0, `len = 2` and a receive buffer
whose element 0 is non-zero (it passes the check), `LPUART_RxMultiFrame`
stores the two received frames `0x41`, `0x42` in `pRxBuffer[0..1]` and returns
0, not 2. -/
theorem rx_multi_frame_returns_zero_after_receiving :
    (INSTANCE_IS_AVAILABLE s32k144Lpuart s32k144Lpuart.LPUART0 = true ∧ 0 ≠ sampleRxBuffer 0) ∧
      (LPUART_RxMultiFrame s32k144Lpuart s32k144Lpuart.LPUART0 sampleIncoming sampleRxBuffer 2).2 0
        = 0x41 ∧
      (LPUART_RxMultiFrame s32k144Lpuart s32k144Lpuart.LPUART0 sampleIncoming sampleRxBuffer 2).2 1
        = 0x42 ∧
      (LPUART_RxMultiFrame s32k144Lpuart s32k144Lpuart.LPUART0 sampleIncoming sampleRxBuffer 2).1
        = 0 ∧
      (LPUART_RxMultiFrame s32k144Lpuart s32k144Lpuart.LPUART0 sampleIncoming sampleRxBuffer 2).1
        ≠ 2 := by
  decide

/-- Claim C14, at a failing input: on LPUART0 with the registers at their
reset values (CTRL = 0) and `enable = 1`,
`LPUART_SetTxState` returns `LPUART_E_OK` and leaves CTRL = `0x800000`: the
TIE bit is set and the TE bit is still 0; `LPUART_SetRxState` leaves
CTRL = `0x200000`: the RIE bit is set and the RE bit is still 0. -/
theorem set_tx_rx_state_leaves_enable_bits :
    ((LPUART_SetTxState s32k144Lpuart s32k144Lpuart.LPUART0 lpuartResetRegs 1).1 =
        Std_LPUART_Status.LPUART_E_OK ∧
      (LPUART_SetTxState s32k144Lpuart s32k144Lpuart.LPUART0 lpuartResetRegs 1).2.CTRL = 0x800000 ∧
      (LPUART_SetTxState s32k144Lpuart s32k144Lpuart.LPUART0 lpuartResetRegs 1).2.CTRL &&&
        s32k144Lpuart.LPUART_CTRL_TE_MASK = 0 ∧
      (LPUART_SetTxState s32k144Lpuart s32k144Lpuart.LPUART0 lpuartResetRegs 1).2.CTRL &&&
        s32k144Lpuart.LPUART_CTRL_TIE_MASK ≠ 0) ∧
    ((LPUART_SetRxState s32k144Lpuart s32k144Lpuart.LPUART0 lpuartResetRegs 1).1 =
        Std_LPUART_Status.LPUART_E_OK ∧
      (LPUART_SetRxState s32k144Lpuart s32k144Lpuart.LPUART0 lpuartResetRegs 1).2.CTRL = 0x200000 ∧
      (LPUART_SetRxState s32k144Lpuart s32k144Lpuart.LPUART0 lpuartResetRegs 1).2.CTRL &&&
        s32k144Lpuart.LPUART_CTRL_RE_MASK = 0 ∧
      (LPUART_SetRxState s32k144Lpuart s32k144Lpuart.LPUART0 lpuartResetRegs 1).2.CTRL &&&
        s32k144Lpuart.LPUART_CTRL_RIE_MASK ≠ 0) := by
  decide

/-- Claim C15, at a failing input: on LPUART0 with the registers at their
reset values (CTRL = 0) and `enable = 1`,
`LPUART_NoiseErrorInterruptConfig` returns `LPUART_E_OK` and leaves
CTRL = `0x8000000`: the NEIE bit is still 0 and the ORIE bit has been set. -/
theorem noise_error_config_sets_overrun_bit :
    (LPUART_NoiseErrorInterruptConfig s32k144Lpuart s32k144Lpuart.LPUART0 lpuartResetRegs 1).1 =
        Std_LPUART_Status.LPUART_E_OK ∧
      (LPUART_NoiseErrorInterruptConfig s32k144Lpuart s32k144Lpuart.LPUART0 lpuartResetRegs 1).2.CTRL =
        0x8000000 ∧
      (LPUART_NoiseErrorInterruptConfig s32k144Lpuart s32k144Lpuart.LPUART0 lpuartResetRegs 1).2.CTRL &&&
        s32k144Lpuart.LPUART_CTRL_NEIE_MASK = 0 ∧
      (LPUART_NoiseErrorInterruptConfig s32k144Lpuart s32k144Lpuart.LPUART0 lpuartResetRegs 1).2.CTRL &&&
        s32k144Lpuart.LPUART_CTRL_ORIE_MASK ≠ lpuartResetRegs.CTRL &&& s32k144Lpuart.LPUART_CTRL_ORIE_MASK := by
  decide

/-- Claim C16, at failing inputs: `LPUART_Init` accepts the handles with
`frameLenth` 7, 9 and 10 (LPUART0, no parity, 9600 baud), returns
`LPUART_E_OK` and, from registers at their reset values, leaves M7 = 0 for
length 7, M = 0 for length 9 and M10 = 0 for length 10: the values 7..10 match
no case of the `switch` in `HAL_LPUART_FrameLengthConfig`, whose enumerators
are 0..3. -/
theorem init_ignores_frame_length :
    (∃ x ∈ LPUART_Init s32k144Lpuart (sampleHandle LPUART_FRAME_7BITS) lpuartResetRegs,
      x.1 = Std_LPUART_Status.LPUART_E_OK ∧
        x.2.CTRL &&& s32k144Lpuart.LPUART_CTRL_M7_MASK = 0) ∧
    (∃ x ∈ LPUART_Init s32k144Lpuart (sampleHandle LPUART_FRAME_9BITS) lpuartResetRegs,
      x.1 = Std_LPUART_Status.LPUART_E_OK ∧
        x.2.CTRL &&& s32k144Lpuart.LPUART_CTRL_M_MASK = 0) ∧
    (∃ x ∈ LPUART_Init s32k144Lpuart (sampleHandle LPUART_FRAME_10BITS) lpuartResetRegs,
      x.1 = Std_LPUART_Status.LPUART_E_OK ∧
        x.2.BAUD &&& s32k144Lpuart.LPUART_BAUD_M10_MASK = 0) := by
  decide!

end Lpuart

namespace Port

/-! ## PORT -/

theorem pin_is_available_iff (n : Nat) : PIN_IS_AVAILABLE n = true ↔ n < 32 := by
  simp [PIN_IS_AVAILABLE, PORT_MAX_PINS]

/-- Claim C17, at a failing input: on PORTA, pin 5, with `PCR[5] = 0xA0000`
(IRQC = `PORT_IRQ_MODE_FALLING_EDGE_INT`), `PORT_EnableInterrupt` with
`PORT_IRQ_MODE_RISING_EDGE_INT` (9) returns `PORT_E_OK` and leaves
IRQC = 11 (`0xA | 0x9`), not 9: the mode is ORed into a field that is not
cleared first. -/
theorem enable_interrupt_ors_irq_mode :
    (NULL ≠ s32k144Port.PORTA ∧ 5 < PORT_MAX_PINS ∧ irqcOf s32k144Port (allPCR 0xA0000 5) = 0xA) ∧
      (PORT_EnableInterrupt s32k144Port s32k144Port.PORTA (allPCR 0xA0000) 5
        PORT_IRQ_MODE_RISING_EDGE_INT).1 = Std_PORT_Status.PORT_E_OK ∧
      irqcOf s32k144Port ((PORT_EnableInterrupt s32k144Port s32k144Port.PORTA (allPCR 0xA0000) 5
        PORT_IRQ_MODE_RISING_EDGE_INT).2 5) = 11 ∧
      irqcOf s32k144Port ((PORT_EnableInterrupt s32k144Port s32k144Port.PORTA (allPCR 0xA0000) 5
        PORT_IRQ_MODE_RISING_EDGE_INT).2 5) ≠ PORT_IRQ_MODE_RISING_EDGE_INT := by
  decide

/-- Claim C18: `PORT_Init` returns `PORT_E_NOT_OK` exactly when the port
pointer is NULL, the configuration pointer is NULL, or
`config->pin >= PORT_MAX_PINS` (32); in each of those cases the PCR array of
the port is returned unchanged; in every other case the result is
`PORT_E_OK`.  This holds for every value of the header constants. -/
theorem port_init_status (h : PortHeader) (PORTx : Nat) (PCR : Nat → Nat)
    (config : Option PORT_Config_t) :
    PORT_MAX_PINS = 32 ∧
      ((PORT_Init h PORTx PCR config).1 = Std_PORT_Status.PORT_E_NOT_OK ↔
        (PORTx = NULL ∨ config = none ∨ ∃ c, config = some c ∧ PORT_MAX_PINS ≤ c.pin)) ∧
      ((PORT_Init h PORTx PCR config).1 = Std_PORT_Status.PORT_E_NOT_OK →
        (PORT_Init h PORTx PCR config).2 = PCR) ∧
      ((PORT_Init h PORTx PCR config).1 ≠ Std_PORT_Status.PORT_E_NOT_OK →
        (PORT_Init h PORTx PCR config).1 = Std_PORT_Status.PORT_E_OK) := by
  refine ⟨rfl, ?_⟩
  cases config with
  | none =>
    simp [PORT_Init]
  | some c =>
    by_cases hp : NULL = PORTx
    · have hp' : PORTx = NULL := hp.symm
      simp [PORT_Init, hp']
    · have hp' : ¬ PORTx = NULL := fun hx => hp hx.symm
      by_cases ha : PIN_IS_AVAILABLE c.pin = true
      · have hlt : c.pin < 32 := (pin_is_available_iff c.pin).mp ha
        have hnle : ¬ PORT_MAX_PINS ≤ c.pin := by
          simp only [PORT_MAX_PINS]; omega
        simp [PORT_Init, hp, ha, hp', hnle]
      · have hge : PORT_MAX_PINS ≤ c.pin := by
          have := mt (pin_is_available_iff c.pin).mpr ha
          simp only [PORT_MAX_PINS]; omega
        simp [PORT_Init, hp, ha, hge]

theorem port_init_status_witness :
    ((PORT_Init s32k144Port s32k144Port.PORTA (allPCR 0xA0000)
          (some { samplePinConfig with pin := 32 })).1 = Std_PORT_Status.PORT_E_NOT_OK ∧
      (PORT_Init s32k144Port s32k144Port.PORTA (allPCR 0xA0000)
          (some { samplePinConfig with pin := 32 })).2 = allPCR 0xA0000) ∧
    ((PORT_Init s32k144Port s32k144Port.PORTA (allPCR 0xA0000) (some samplePinConfig)).1 ≠
        Std_PORT_Status.PORT_E_NOT_OK ∧
      (PORT_Init s32k144Port s32k144Port.PORTA (allPCR 0xA0000) (some samplePinConfig)).1 =
        Std_PORT_Status.PORT_E_OK) :=
  ⟨⟨by decide,
      (port_init_status s32k144Port s32k144Port.PORTA (allPCR 0xA0000)
        (some { samplePinConfig with pin := 32 })).2.2.1 (by decide)⟩,
    ⟨by decide,
      (port_init_status s32k144Port s32k144Port.PORTA (allPCR 0xA0000)
        (some samplePinConfig)).2.2.2 (by decide)⟩⟩

end Port

namespace Gpio

/-! ## GPIO -/

theorem pin_not_available_iff (h : GpioHeader) (pin port : Nat) :
    ¬ PIN_IS_AVAILABLE h pin port = true ↔
      (port = h.PTE ∧ 17 ≤ pin) ∨ (port ≠ h.PTE ∧ 18 ≤ pin) := by
  unfold PIN_IS_AVAILABLE
  by_cases hp : port = h.PTE
  · simp [hp]
  · simp [hp]

/-- Claim C19: each of `GPIO_SetPin`, `GPIO_ClearPin`, `GPIO_TogglePin` and
`GPIO_SetDirection` returns `GPIO_E_NOT_OK` exactly when the pin is not
available (`pin >= 17` on PTE, `pin >= 18` on any other port) or, for
`GPIO_SetDirection`, the direction is neither `ARM_GPIO_INPUT` nor
`ARM_GPIO_OUTPUT`; in that case the register block (PDDR, PSOR, PCOR and PTOR
included) is returned unchanged; otherwise the result is `GPIO_E_OK`. -/
theorem gpio_rejects_unavailable_pin (h : GpioHeader) (pGPIOx : Nat)
    (r : GPIO_Type) (pin direction : Nat) :
    (((GPIO_SetPin h pGPIOx r pin).1 = Std_GPIO_Status.GPIO_E_NOT_OK ↔
          (pGPIOx = h.PTE ∧ 17 ≤ pin) ∨ (pGPIOx ≠ h.PTE ∧ 18 ≤ pin)) ∧
        ((GPIO_SetPin h pGPIOx r pin).1 = Std_GPIO_Status.GPIO_E_NOT_OK →
          (GPIO_SetPin h pGPIOx r pin).2 = r) ∧
        ((GPIO_SetPin h pGPIOx r pin).1 ≠ Std_GPIO_Status.GPIO_E_NOT_OK →
          (GPIO_SetPin h pGPIOx r pin).1 = Std_GPIO_Status.GPIO_E_OK)) ∧
      (((GPIO_ClearPin h pGPIOx r pin).1 = Std_GPIO_Status.GPIO_E_NOT_OK ↔
          (pGPIOx = h.PTE ∧ 17 ≤ pin) ∨ (pGPIOx ≠ h.PTE ∧ 18 ≤ pin)) ∧
        ((GPIO_ClearPin h pGPIOx r pin).1 = Std_GPIO_Status.GPIO_E_NOT_OK →
          (GPIO_ClearPin h pGPIOx r pin).2 = r) ∧
        ((GPIO_ClearPin h pGPIOx r pin).1 ≠ Std_GPIO_Status.GPIO_E_NOT_OK →
          (GPIO_ClearPin h pGPIOx r pin).1 = Std_GPIO_Status.GPIO_E_OK)) ∧
      (((GPIO_TogglePin h pGPIOx r pin).1 = Std_GPIO_Status.GPIO_E_NOT_OK ↔
          (pGPIOx = h.PTE ∧ 17 ≤ pin) ∨ (pGPIOx ≠ h.PTE ∧ 18 ≤ pin)) ∧
        ((GPIO_TogglePin h pGPIOx r pin).1 = Std_GPIO_Status.GPIO_E_NOT_OK →
          (GPIO_TogglePin h pGPIOx r pin).2 = r) ∧
        ((GPIO_TogglePin h pGPIOx r pin).1 ≠ Std_GPIO_Status.GPIO_E_NOT_OK →
          (GPIO_TogglePin h pGPIOx r pin).1 = Std_GPIO_Status.GPIO_E_OK)) ∧
      (((GPIO_SetDirection h pGPIOx r pin direction).1 = Std_GPIO_Status.GPIO_E_NOT_OK ↔
          ((pGPIOx = h.PTE ∧ 17 ≤ pin) ∨ (pGPIOx ≠ h.PTE ∧ 18 ≤ pin)) ∨
            (direction ≠ ARM_GPIO_INPUT ∧ direction ≠ ARM_GPIO_OUTPUT)) ∧
        ((GPIO_SetDirection h pGPIOx r pin direction).1 = Std_GPIO_Status.GPIO_E_NOT_OK →
          (GPIO_SetDirection h pGPIOx r pin direction).2 = r) ∧
        ((GPIO_SetDirection h pGPIOx r pin direction).1 ≠ Std_GPIO_Status.GPIO_E_NOT_OK →
          (GPIO_SetDirection h pGPIOx r pin direction).1 = Std_GPIO_Status.GPIO_E_OK)) := by
  have hav := pin_not_available_iff h pin pGPIOx
  refine ⟨?_, ?_, ?_, ?_⟩
  · unfold GPIO_SetPin
    by_cases ha : PIN_IS_AVAILABLE h pin pGPIOx = true
    · have hn := mt hav.mpr (not_not.mpr ha)
      simp [ha, hn]
    · have hu := hav.mp ha
      simp [ha, hu]
  · unfold GPIO_ClearPin
    by_cases ha : PIN_IS_AVAILABLE h pin pGPIOx = true
    · have hn := mt hav.mpr (not_not.mpr ha)
      simp [ha, hn]
    · have hu := hav.mp ha
      simp [ha, hu]
  · unfold GPIO_TogglePin
    by_cases ha : PIN_IS_AVAILABLE h pin pGPIOx = true
    · have hn := mt hav.mpr (not_not.mpr ha)
      simp [ha, hn]
    · have hu := hav.mp ha
      simp [ha, hu]
  · unfold GPIO_SetDirection
    by_cases ha : PIN_IS_AVAILABLE h pin pGPIOx = true
    · have hn := mt hav.mpr (not_not.mpr ha)
      by_cases hd : direction = ARM_GPIO_INPUT ∨ direction = ARM_GPIO_OUTPUT
      · have hd' : ¬ (direction ≠ ARM_GPIO_INPUT ∧ direction ≠ ARM_GPIO_OUTPUT) := by
          rintro ⟨h1, h2⟩
          rcases hd with hd | hd
          · exact h1 hd
          · exact h2 hd
        rw [if_pos ⟨ha, hd⟩]
        refine ⟨⟨fun hx => ?_, fun hx => ?_⟩, fun hx => ?_, fun _ => rfl⟩
        · cases hx
        · rcases hx with hx | hx
          · exact absurd hx hn
          · exact absurd hx hd'
        · cases hx
      · have hd' : direction ≠ ARM_GPIO_INPUT ∧ direction ≠ ARM_GPIO_OUTPUT :=
          not_or.mp hd
        rw [if_neg (fun hx => hd hx.2)]
        exact ⟨⟨fun _ => Or.inr hd', fun _ => rfl⟩, fun _ => rfl, fun hx => absurd rfl hx⟩
    · have hu := hav.mp ha
      rw [if_neg (fun hx => ha hx.1)]
      exact ⟨⟨fun _ => Or.inl hu, fun _ => rfl⟩, fun _ => rfl, fun hx => absurd rfl hx⟩

theorem gpio_rejects_unavailable_pin_witness :
    ((GPIO_SetPin s32k144Gpio s32k144Gpio.PTE gpioZeroRegs 17).1 = Std_GPIO_Status.GPIO_E_NOT_OK ∧
      (GPIO_SetPin s32k144Gpio s32k144Gpio.PTE gpioZeroRegs 17).2 = gpioZeroRegs) ∧
    ((GPIO_ClearPin s32k144Gpio PTA gpioZeroRegs 18).1 = Std_GPIO_Status.GPIO_E_NOT_OK ∧
      (GPIO_ClearPin s32k144Gpio PTA gpioZeroRegs 18).2 = gpioZeroRegs) ∧
    ((GPIO_TogglePin s32k144Gpio PTA gpioZeroRegs 17).1 ≠ Std_GPIO_Status.GPIO_E_NOT_OK ∧
      (GPIO_TogglePin s32k144Gpio PTA gpioZeroRegs 17).1 = Std_GPIO_Status.GPIO_E_OK) ∧
    ((GPIO_SetDirection s32k144Gpio PTA gpioZeroRegs 3 2).1 = Std_GPIO_Status.GPIO_E_NOT_OK ∧
      (GPIO_SetDirection s32k144Gpio PTA gpioZeroRegs 3 2).2 = gpioZeroRegs) :=
  ⟨⟨by decide,
      (gpio_rejects_unavailable_pin s32k144Gpio s32k144Gpio.PTE gpioZeroRegs 17 0).1.2.1 (by decide)⟩,
    ⟨by decide,
      (gpio_rejects_unavailable_pin s32k144Gpio PTA gpioZeroRegs 18 0).2.1.2.1 (by decide)⟩,
    ⟨by decide,
      (gpio_rejects_unavailable_pin s32k144Gpio PTA gpioZeroRegs 17 0).2.2.1.2.2 (by decide)⟩,
    ⟨by decide,
      (gpio_rejects_unavailable_pin s32k144Gpio PTA gpioZeroRegs 3 2).2.2.2.2.1 (by decide)⟩⟩

end Gpio

namespace RingBuffer

/-! ## Occupancy, the zero sentinel and safety -/

/-- A list whose `i`-th element is `f i` for every position is the image of
the positions under `f`. -/
theorem eq_map_range_of_getElem? (l : List Nat) (f : Nat → Nat)
    (h : ∀ i, i < l.length → l[i]? = some (f i)) :
    l = (List.range l.length).map f := by
  apply List.ext_getElem?
  intro i
  by_cases hi : i < l.length
  · rw [h i hi, List.getElem?_map, List.getElem?_range hi]
    rfl
  · have hge : l.length ≤ i := Nat.le_of_not_lt hi
    rw [List.getElem?_eq_none hge, List.getElem?_eq_none]
    simpa using hge

/-- The content of a queue that holds `l`, read off the buffer. -/
theorem holds_content (q : Std_Queue_Types) (l : List Nat) (h : Holds q l) :
    l = (List.range q.size).map
      (fun i => q.queueArr ((q.front + i) % q.capacity)) := by
  have hs : q.size = l.length := h.2.2.1
  rw [hs]
  exact eq_map_range_of_getElem? l _ h.2.2.2.2.2.2

/-- Claim C22, occupancy invariant: in every state `q` reached from a
well-formed empty queue (`capacity >= 1`, a `uint8_t`; `size = 0`;
`front = tail < capacity`) by a sequence of `queuePush` and `queuePop` calls,
`tail = (front + size) mod capacity`, and the next `size` calls of `queuePop`
return `storage[front]`, `storage[(front+1) mod capacity]`, ...,
`storage[(front+size-1) mod capacity]` in that order. -/
theorem occupancy_invariant (q0 q : Std_Queue_Types) (cs : List Call)
    (hc1 : 1 ≤ q0.capacity) (hc2 : q0.capacity ≤ 255) (hs : q0.size = 0)
    (hft : q0.front = q0.tail) (ht : q0.tail < q0.capacity)
    (hreach : (runCalls q0 cs).2 = q) :
    q.tail = (q.front + q.size) % q.capacity ∧
      (popN q.size q).1 =
        (List.range q.size).map (fun i => q.queueArr ((q.front + i) % q.capacity)) := by
  have h0 : Holds q0 [] := holds_of_empty q0 hc1 hc2 hs (by omega) hft.symm
  have h1 := (holds_runCalls q0 [] cs h0).2
  rw [hreach] at h1
  refine ⟨h1.2.2.2.2.2.1, ?_⟩
  have h2 := (holds_popN q _ h1).1
  have h3 : q.size = ((refRun q0.capacity [] cs).2).length := h1.2.2.1
  rw [← h3] at h2
  rw [h2]
  exact holds_content q _ h1

theorem occupancy_invariant_witness :
    (1 ≤ (emptyQueue 3).capacity ∧ (emptyQueue 3).capacity ≤ 255 ∧
      (emptyQueue 3).size = 0 ∧ (emptyQueue 3).front = (emptyQueue 3).tail ∧
      (emptyQueue 3).tail < (emptyQueue 3).capacity) ∧
    ((runCalls (emptyQueue 3) (scenarioEndToEnd.take 6)).2.front = 1 ∧
      (runCalls (emptyQueue 3) (scenarioEndToEnd.take 6)).2.size = 3) ∧
    (runCalls (emptyQueue 3) (scenarioEndToEnd.take 6)).2.tail =
      ((runCalls (emptyQueue 3) (scenarioEndToEnd.take 6)).2.front +
        (runCalls (emptyQueue 3) (scenarioEndToEnd.take 6)).2.size) %
        (runCalls (emptyQueue 3) (scenarioEndToEnd.take 6)).2.capacity ∧
    (popN (runCalls (emptyQueue 3) (scenarioEndToEnd.take 6)).2.size
        (runCalls (emptyQueue 3) (scenarioEndToEnd.take 6)).2).1 =
      (List.range (runCalls (emptyQueue 3) (scenarioEndToEnd.take 6)).2.size).map
        (fun i => (runCalls (emptyQueue 3) (scenarioEndToEnd.take 6)).2.queueArr
          (((runCalls (emptyQueue 3) (scenarioEndToEnd.take 6)).2.front + i) %
            (runCalls (emptyQueue 3) (scenarioEndToEnd.take 6)).2.capacity)) :=
  ⟨by decide, by decide,
    occupancy_invariant (emptyQueue 3) _ (scenarioEndToEnd.take 6) (by decide) (by decide)
      (by decide) (by decide) (by decide) rfl⟩

/-- Claim C23, the return value of `queuePop` does not tell an empty queue
from a stored zero: there is a well-formed, non-empty queue state whose front
element is the byte 0, on which `queuePop` returns 0, the value it returns on
every empty queue; the call on the non-empty queue changes `front` and `size`
and nothing else, the call on an empty queue changes nothing. -/
theorem pop_zero_indistinguishable :
    ∃ q : Std_Queue_Types,
      (1 ≤ q.capacity ∧ q.capacity ≤ 255 ∧ q.size ≤ q.capacity ∧
        q.front < q.capacity ∧ q.tail = (q.front + q.size) % q.capacity) ∧
      q.size ≠ 0 ∧ q.queueArr q.front = 0 ∧
      (queuePop q).1 = 0 ∧
      (∀ e : Std_Queue_Types, e.size = 0 →
        (queuePop e).1 = (queuePop q).1 ∧ (queuePop e).2 = e) ∧
      ((queuePop q).2.front ≠ q.front ∧ (queuePop q).2.size ≠ q.size ∧
        (queuePop q).2.tail = q.tail ∧ (queuePop q).2.capacity = q.capacity ∧
        (queuePop q).2.queueArr = q.queueArr) := by
  refine ⟨zeroFrontQueue, by decide, by decide, rfl, rfl, ?_, by decide, by decide, rfl, rfl,
    rfl⟩
  intro e he
  rw [queuePop_empty e he]
  exact ⟨rfl, rfl⟩

/-- Claim C27, safety on well-formed states: when `size <= capacity`,
`front < capacity` or `capacity = 0`, `tail < capacity` or `capacity = 0`, and
the buffer has `len >= capacity` bytes, every right operand of `%` that
`queuePush` or `queuePop` evaluates is non-zero and every position at which
they index the buffer is below `capacity` (hence below `len`); with
`capacity = 0` and `size = 0` both operations return the state unchanged. -/
theorem ring_buffer_safe (q : Std_Queue_Types) (v len : Nat)
    (hs : q.size ≤ q.capacity) (hf : q.front < q.capacity ∨ q.capacity = 0)
    (ht : q.tail < q.capacity ∨ q.capacity = 0) (hlen : q.capacity ≤ len) :
    ((∀ d ∈ queuePushDivisors q, d ≠ 0) ∧
        (∀ i ∈ queuePushIndexes q, i < q.capacity ∧ i < len)) ∧
      ((∀ d ∈ queuePopDivisors q, d ≠ 0) ∧
        (∀ i ∈ queuePopIndexes q, i < q.capacity ∧ i < len)) ∧
      (q.capacity = 0 → q.size = 0 →
        queuePush q v = q ∧ queuePop q = (0, q)) := by
  refine ⟨⟨?_, ?_⟩, ⟨?_, ?_⟩, ?_⟩
  · intro d hd
    unfold queuePushDivisors QUEUE_IS_FULL at hd
    by_cases hfull : q.size = q.capacity
    · simp [hfull] at hd
    · simp [hfull] at hd
      omega
  · intro i hi
    unfold queuePushIndexes QUEUE_IS_FULL at hi
    by_cases hfull : q.size = q.capacity
    · simp [hfull] at hi
    · simp [hfull] at hi
      omega
  · intro d hd
    unfold queuePopDivisors QUEUE_IS_EMPTY at hd
    by_cases hemp : q.size = 0
    · simp [hemp] at hd
    · simp [hemp] at hd
      omega
  · intro i hi
    unfold queuePopIndexes QUEUE_IS_EMPTY at hi
    by_cases hemp : q.size = 0
    · simp [hemp] at hi
    · simp [hemp] at hi
      omega
  · intro hc hz
    exact ⟨queuePush_full q v (by omega), queuePop_empty q hz⟩

theorem ring_buffer_safe_witness :
    (partQueue.size ≤ partQueue.capacity ∧
      (partQueue.front < partQueue.capacity ∨ partQueue.capacity = 0) ∧
      (partQueue.tail < partQueue.capacity ∨ partQueue.capacity = 0) ∧
      partQueue.capacity ≤ 4) ∧
    (queuePushDivisors partQueue = [4] ∧ queuePushIndexes partQueue = [0] ∧
      queuePopDivisors partQueue = [4] ∧ queuePopIndexes partQueue = [2]) ∧
    (((∀ d ∈ queuePushDivisors partQueue, d ≠ 0) ∧
        (∀ i ∈ queuePushIndexes partQueue, i < partQueue.capacity ∧ i < 4)) ∧
      ((∀ d ∈ queuePopDivisors partQueue, d ≠ 0) ∧
        (∀ i ∈ queuePopIndexes partQueue, i < partQueue.capacity ∧ i < 4)) ∧
      (partQueue.capacity = 0 → partQueue.size = 0 →
        queuePush partQueue 9 = partQueue ∧ queuePop partQueue = (0, partQueue))) ∧
    (queuePush zeroCapacityQueue 9 = zeroCapacityQueue ∧
      queuePop zeroCapacityQueue = (0, zeroCapacityQueue)) :=
  ⟨by decide, by decide,
    ring_buffer_safe partQueue 9 4 (by decide) (by decide) (by decide) (by decide),
    (ring_buffer_safe zeroCapacityQueue 9 0 (by decide) (by decide) (by decide)
      (by decide)).2.2 rfl rfl⟩

end RingBuffer

namespace Lpuart

/-! ## LPUART: handle validation and callback slots -/

/-- The handle check accepts exactly the handles described in the header
`s32k144_lpuart_driver.h`. -/
theorem check_handle_validation_iff (h : LpuartHeader) (hd : LPUART_Handle_Type) :
    LPUART_CheckHandleValidation h hd = Std_LPUART_Status.LPUART_E_OK ↔
      (hd.pLPUARTx = h.LPUART0 ∨ hd.pLPUARTx = h.LPUART1 ∨ hd.pLPUARTx = h.LPUART2) ∧
      (7 ≤ hd.LPUART_Config.frameLenth ∧ hd.LPUART_Config.frameLenth ≤ 10) ∧
      hd.LPUART_Config.parityMode ≤ 2 ∧
      (hd.LPUART_Config.nOfStopBits = 0 ∨ hd.LPUART_Config.nOfStopBits = 1) ∧
      (hd.LPUART_Config.msbFirst = 0 ∨ hd.LPUART_Config.msbFirst = 1) ∧
      (hd.LPUART_Config.txInterrupt = 0 ∨ hd.LPUART_Config.txInterrupt = 1) ∧
      (hd.LPUART_Config.rxInterrupt = 0 ∨ hd.LPUART_Config.rxInterrupt = 1) ∧
      (hd.LPUART_Config.txCompleteInterrupt = 0 ∨
        hd.LPUART_Config.txCompleteInterrupt = 1) ∧
      (hd.LPUART_Config.overRunInterrupt = 0 ∨ hd.LPUART_Config.overRunInterrupt = 1) ∧
      (hd.LPUART_Config.noiseErrorInterrupt = 0 ∨
        hd.LPUART_Config.noiseErrorInterrupt = 1) ∧
      (hd.LPUART_Config.frameErrorInterrupt = 0 ∨
        hd.LPUART_Config.frameErrorInterrupt = 1) ∧
      (hd.LPUART_Config.parityErrorInterrupt = 0 ∨
        hd.LPUART_Config.parityErrorInterrupt = 1) ∧
      (hd.LPUART_Config.txPolarity = 0 ∨ hd.LPUART_Config.txPolarity = 1) ∧
      (hd.LPUART_Config.rxPolarity = 0 ∨ hd.LPUART_Config.rxPolarity = 1) ∧
      (0 < hd.LPUART_Config.baudRate ∧ hd.LPUART_Config.baudRate ≤ clock / 4) := by
  unfold LPUART_CheckHandleValidation
  simp only [LPUART_FRAME_7BITS, LPUART_FRAME_10BITS, LPUART_PARITY_DISABLE,
    LPUART_STOP_BITS_1, LPUART_STOP_BITS_2, LPUART_MSB_FIRST, LPUART_LSB_FIRST,
    LPUART_TX_INTERRUPT_DISABLE, LPUART_TX_INTERRUPT_ENABLE,
    LPUART_RX_INTERRUPT_DISABLE, LPUART_RX_INTERRUPT_ENABLE,
    LPUART_TX_COMPLETE_INTERRUPT_DISABLE, LPUART_TX_COMPLETE_INTERRUPT_ENABLE,
    LPUART_OVERRUN_INTERRUPT_DISABLE, LPUART_OVERRUN_INTERRUPT_ENABLE,
    LPUART_NOISE_ERROR_INTERRUPT_DISABLE, LPUART_NOISE_ERROR_INTERRUPT_ENABLE,
    LPUART_FRAME_ERROR_INTERRUPT_DISABLE, LPUART_FRAME_ERROR_INTERRUPT_ENABLE,
    LPUART_PARITY_ERROR_INTERRUPT_DISABLE, LPUART_PARITY_ERROR_INTERRUPT_ENABLE,
    LPUART_TX_DATA_INVERSION_DISABLE, LPUART_TX_DATA_INVERSION_ENABLE,
    LPUART_RX_DATA_INVERSION_DISABLE, LPUART_RX_DATA_INVERSION_ENABLE,
    instance_is_available_iff, MAX_BAUDRATE, ge_iff_le, @eq_comm Nat 0, @eq_comm Nat 1]
  split
  · next hc =>
    refine ⟨fun _ => ?_, fun _ => rfl⟩
    obtain ⟨h1, h2, h3, h4, h5, h6, h7, h8, h9, h10, h11, h12, h13, h14, h15, h16, h17⟩ := hc
    exact ⟨h1, ⟨h2, h3⟩, h4, h5, h6, h7, h8, h9, h10, h11, h12, h13, h14, h15, h16, h17⟩
  · next hc =>
    constructor
    · intro hx; cases hx
    · rintro ⟨h1, ⟨h2, h3⟩, h4, h5, h6, h7, h8, h9, h10, h11, h12, h13, h14, h15, h16, h17⟩
      exact absurd ⟨h1, h2, h3, h4, h5, h6, h7, h8, h9, h10, h11, h12, h13, h14, h15,
        h16, h17⟩ hc

/-- Claim C21, callback slots: with the three base addresses distinct,
`LPUART_CallbackRegister` returns `LPUART_E_OK` exactly when the instance is
LPUART0, LPUART1 or LPUART2 and the handler is non-null; on success the slot
of that instance (0, 1 or 2) holds the handler and every other slot is
unchanged; on failure the array is unchanged; and `LPUARTn_RxTx_IRQHandler`
calls the function in slot `n` exactly when that slot is non-null. -/
theorem callback_slots (h : LpuartHeader) (cb : Nat → Nat) (pLPUARTx IRQHandler : Nat)
    (h01 : h.LPUART0 ≠ h.LPUART1) (h02 : h.LPUART0 ≠ h.LPUART2)
    (h12 : h.LPUART1 ≠ h.LPUART2) :
    ((LPUART_CallbackRegister h cb pLPUARTx IRQHandler).1 = Std_LPUART_Status.LPUART_E_OK ↔
      (pLPUARTx = h.LPUART0 ∨ pLPUARTx = h.LPUART1 ∨ pLPUARTx = h.LPUART2) ∧
        IRQHandler ≠ 0) ∧
    ((LPUART_CallbackRegister h cb pLPUARTx IRQHandler).1 = Std_LPUART_Status.LPUART_E_OK →
      (pLPUARTx = h.LPUART0 →
        (LPUART_CallbackRegister h cb pLPUARTx IRQHandler).2 0 = IRQHandler ∧
        ∀ n, n ≠ 0 → (LPUART_CallbackRegister h cb pLPUARTx IRQHandler).2 n = cb n) ∧
      (pLPUARTx = h.LPUART1 →
        (LPUART_CallbackRegister h cb pLPUARTx IRQHandler).2 1 = IRQHandler ∧
        ∀ n, n ≠ 1 → (LPUART_CallbackRegister h cb pLPUARTx IRQHandler).2 n = cb n) ∧
      (pLPUARTx = h.LPUART2 →
        (LPUART_CallbackRegister h cb pLPUARTx IRQHandler).2 2 = IRQHandler ∧
        ∀ n, n ≠ 2 → (LPUART_CallbackRegister h cb pLPUARTx IRQHandler).2 n = cb n)) ∧
    ((LPUART_CallbackRegister h cb pLPUARTx IRQHandler).1 ≠ Std_LPUART_Status.LPUART_E_OK →
      (LPUART_CallbackRegister h cb pLPUARTx IRQHandler).1 =
          Std_LPUART_Status.LPUART_E_NOT_OK ∧
        (LPUART_CallbackRegister h cb pLPUARTx IRQHandler).2 = cb) ∧
    ((LPUART0_RxTx_IRQHandler cb = some (cb 0) ↔ cb 0 ≠ 0) ∧
      (LPUART0_RxTx_IRQHandler cb = none ↔ cb 0 = 0)) ∧
    ((LPUART1_RxTx_IRQHandler cb = some (cb 1) ↔ cb 1 ≠ 0) ∧
      (LPUART1_RxTx_IRQHandler cb = none ↔ cb 1 = 0)) ∧
    ((LPUART2_RxTx_IRQHandler cb = some (cb 2) ↔ cb 2 ≠ 0) ∧
      (LPUART2_RxTx_IRQHandler cb = none ↔ cb 2 = 0)) := by
  have hirq : ∀ n, ((if 0 ≠ cb n then some (cb n) else none) = some (cb n) ↔ cb n ≠ 0) ∧
      ((if 0 ≠ cb n then some (cb n) else none) = none ↔ cb n = 0) := by
    intro n
    by_cases hz : cb n = 0
    · simp [hz]
    · have hz' : 0 ≠ cb n := fun hx => hz hx.symm
      simp [hz, hz']
  refine ⟨?_, ?_, ?_, hirq 0, hirq 1, hirq 2⟩
  · unfold LPUART_CallbackRegister
    by_cases hc : INSTANCE_IS_AVAILABLE h pLPUARTx = true ∧ 0 ≠ IRQHandler
    · rw [if_pos hc]
      exact ⟨fun _ => ⟨(instance_is_available_iff h pLPUARTx).mp hc.1, fun hx => hc.2 hx.symm⟩,
        fun _ => rfl⟩
    · rw [if_neg hc]
      refine ⟨fun hx => ?_, fun hx => ?_⟩
      · cases hx
      · exact absurd ⟨(instance_is_available_iff h pLPUARTx).mpr hx.1,
          fun hy => hx.2 hy.symm⟩ hc
  · intro hok
    unfold LPUART_CallbackRegister at hok ⊢
    by_cases hc : INSTANCE_IS_AVAILABLE h pLPUARTx = true ∧ 0 ≠ IRQHandler
    · rw [if_pos hc]
      refine ⟨fun hp => ?_, fun hp => ?_, fun hp => ?_⟩
      · subst hp
        simp only [if_true]
        exact ⟨by simp [writeCallback], fun n hn => by simp [writeCallback, hn]⟩
      · subst hp
        simp only [if_neg h01, if_true]
        exact ⟨by simp [writeCallback], fun n hn => by simp [writeCallback, hn]⟩
      · subst hp
        simp only [if_neg h02, if_neg h12, if_true]
        exact ⟨by simp [writeCallback], fun n hn => by simp [writeCallback, hn]⟩
    · rw [if_neg hc] at hok
      cases hok
  · intro hne
    unfold LPUART_CallbackRegister at hne ⊢
    by_cases hc : INSTANCE_IS_AVAILABLE h pLPUARTx = true ∧ 0 ≠ IRQHandler
    · rw [if_pos hc] at hne
      exact absurd rfl hne
    · rw [if_neg hc]
      exact ⟨rfl, rfl⟩

theorem callback_slots_witness :
    (s32k144Lpuart.LPUART0 ≠ s32k144Lpuart.LPUART1 ∧
      s32k144Lpuart.LPUART0 ≠ s32k144Lpuart.LPUART2 ∧
      s32k144Lpuart.LPUART1 ≠ s32k144Lpuart.LPUART2) ∧
    ((LPUART_CallbackRegister s32k144Lpuart noCallbacks s32k144Lpuart.LPUART1 0x2001).1 =
        Std_LPUART_Status.LPUART_E_OK ∧
      (LPUART_CallbackRegister s32k144Lpuart noCallbacks s32k144Lpuart.LPUART1 0x2001).2 1 =
        0x2001 ∧
      (∀ n, n ≠ 1 →
        (LPUART_CallbackRegister s32k144Lpuart noCallbacks s32k144Lpuart.LPUART1 0x2001).2 n =
          noCallbacks n)) ∧
    (LPUART1_RxTx_IRQHandler
        (LPUART_CallbackRegister s32k144Lpuart noCallbacks s32k144Lpuart.LPUART1 0x2001).2 =
      some 0x2001 ∧
      LPUART0_RxTx_IRQHandler
        (LPUART_CallbackRegister s32k144Lpuart noCallbacks s32k144Lpuart.LPUART1 0x2001).2 =
      none) ∧
    ((LPUART_CallbackRegister s32k144Lpuart noCallbacks s32k144Lpuart.LPUART1 0).1 =
        Std_LPUART_Status.LPUART_E_NOT_OK ∧
      (LPUART_CallbackRegister s32k144Lpuart noCallbacks s32k144Lpuart.LPUART1 0).2 =
        noCallbacks) :=
  ⟨by decide,
    ⟨by decide,
      ((callback_slots s32k144Lpuart noCallbacks s32k144Lpuart.LPUART1 0x2001
        (by decide) (by decide) (by decide)).2.1 (by decide)).2.1 rfl⟩,
    by decide,
    (callback_slots s32k144Lpuart noCallbacks s32k144Lpuart.LPUART1 0
      (by decide) (by decide) (by decide)).2.2.1 (by decide)⟩

end Lpuart

namespace Port

/-! ## PORT: callback registration -/

/-- The status of `Register_InterruptHandler` is `PORT_E_NOT_OK` exactly when
the port pointer or the callback is NULL. -/
theorem register_handler_status (h : PortHeader) (arr : Nat → Nat)
    (PORTx App_Function : Nat) :
    (Register_InterruptHandler h arr PORTx App_Function).1 =
        Std_PORT_Status.PORT_E_NOT_OK ↔
      PORTx = NULL ∨ App_Function = NULL := by
  unfold Register_InterruptHandler
  by_cases hp : NULL = PORTx
  · rw [if_neg (not_not.mpr hp)]
    exact ⟨fun _ => Or.inl hp.symm, fun _ => rfl⟩
  · rw [if_pos hp]
    by_cases hf : NULL = App_Function
    · rw [if_neg (not_not.mpr hf)]
      exact ⟨fun _ => Or.inr hf.symm, fun _ => rfl⟩
    · rw [if_pos hf]
      constructor
      · intro hx
        split at hx
        · cases hx
        · split at hx
          · cases hx
          · split at hx
            · cases hx
            · split at hx
              · cases hx
              · split at hx <;> cases hx
      · rintro (hx | hx)
        · exact absurd hx.symm hp
        · exact absurd hx.symm hf

/-- Claim C26, at a failing input: for the non-null pointer `0x400FF000`,
which is none of PORTA..PORTE, and a non-null callback,
`Register_InterruptHandler` returns `PORT_E_OK` although the callback has
been stored in no slot: the five slots are as before. -/
theorem register_handler_ok_without_registration :
    (strayPort ≠ NULL ∧ sampleHandler ≠ NULL ∧
      strayPort ≠ s32k144Port.PORTA ∧ strayPort ≠ s32k144Port.PORTB ∧
      strayPort ≠ s32k144Port.PORTC ∧ strayPort ≠ s32k144Port.PORTD ∧
      strayPort ≠ s32k144Port.PORTE) ∧
    (Register_InterruptHandler s32k144Port noHandlers strayPort sampleHandler).1 =
      Std_PORT_Status.PORT_E_OK ∧
    (Register_InterruptHandler s32k144Port noHandlers strayPort sampleHandler).2 =
      noHandlers ∧
    (∀ n, n < 5 →
      (Register_InterruptHandler s32k144Port noHandlers strayPort sampleHandler).2 n ≠
        sampleHandler) := by
  refine ⟨by decide, by decide, rfl, ?_⟩
  intro n _
  show (0 : Nat) ≠ sampleHandler
  decide

end Port

namespace Lpuart

/-! ## LPUART: the baud-rate search -/

theorem searchError_nonneg (baudRate rate : Nat) : 0 ≤ searchError baudRate rate := by
  unfold searchError
  exact mul_nonneg (div_nonneg (Nat.cast_nonneg _) (Nat.cast_nonneg _)) (by norm_num)

/-- With `tmpSBRval` non-zero the second division of the loop body is
defined. -/
theorem tmpBaudRate_eq_some (baudRate i : Nat) (hs : tmpSBRval baudRate i ≠ 0) :
    tmpBaudRate baudRate i = some (clock / ((i + 1) * tmpSBRval baudRate i)) := by
  have hd : (i + 1) * tmpSBRval baudRate i ≠ 0 :=
    Nat.mul_ne_zero (Nat.succ_ne_zero i) hs
  unfold tmpBaudRate
  rw [if_neg hd]

/-- With `tmpSBRval = 0` the second division of the loop body has the divisor
0. -/
theorem tmpBaudRate_eq_none (baudRate i : Nat) (hs : tmpSBRval baudRate i = 0) :
    tmpBaudRate baudRate i = none := by
  have hd : (i + 1) * tmpSBRval baudRate i = 0 := by rw [hs, Nat.mul_zero]
  unfold tmpBaudRate
  rw [if_pos hd]

/-- The loop body where neither divisor is zero. -/
theorem searchBody_eq (baudRate i : Nat) (s : SearchState)
    (h1 : Bits.u32 ((i + 1) * baudRate) ≠ 0) (h2 : tmpSBRval baudRate i ≠ 0) :
    searchBody baudRate i s =
      some (if searchError baudRate (clock / ((i + 1) * tmpSBRval baudRate i)) < s.minError
        then
          { minError := searchError baudRate (clock / ((i + 1) * tmpSBRval baudRate i))
            osrVal := i
            sbrVal := tmpSBRval baudRate i }
        else s) := by
  unfold searchBody
  rw [if_neg h1, tmpBaudRate_eq_some baudRate i h2]
  show (if _ then some _ else some _) = some (if _ then _ else _)
  split <;> rfl

/-- The loop body where `tmpSBRval = 0`: no defined result. -/
theorem searchBody_eq_none (baudRate i : Nat) (s : SearchState)
    (h2 : tmpSBRval baudRate i = 0) : searchBody baudRate i s = none := by
  unfold searchBody
  rw [tmpBaudRate_eq_none baudRate i h2]
  split <;> rfl

theorem searchInv_start (error : Nat → ℚ) (sbr : Nat → Nat) :
    SearchInv error sbr 31 searchStart := by
  refine ⟨fun i h1 h2 => ?_, Or.inl ⟨rfl, fun i h1 h2 => ?_⟩⟩ <;> omega

theorem searchInv_minError_le (error : Nat → ℚ) (sbr : Nat → Nat) (k : Nat)
    (s : SearchState) (h : SearchInv error sbr k s) : s.minError ≤ 100 := by
  rcases h.2 with ⟨hs, _⟩ | ⟨_, _, _, _, _, hlt, _⟩
  · rw [hs]; exact le_refl _
  · exact le_of_lt hlt

/-- One iteration of the loop keeps the invariant. -/
theorem searchInv_body (error : Nat → ℚ) (sbr : Nat → Nat) (k : Nat) (s : SearchState)
    (hk3 : 3 ≤ k + 1) (hk : k + 1 ≤ 31) (h : SearchInv error sbr (k + 1) s) :
    SearchInv error sbr k
      (if error (k + 1) < s.minError then
        { minError := error (k + 1), osrVal := k + 1, sbrVal := sbr (k + 1) }
      else s) := by
  have hle := searchInv_minError_le error sbr (k + 1) s h
  obtain ⟨hlow, hsel⟩ := h
  by_cases hlt : error (k + 1) < s.minError
  · rw [if_pos hlt]
    refine ⟨fun i h1 h2 => ?_, Or.inr ⟨hk3, Nat.lt_succ_self k, hk, rfl, rfl,
      lt_of_lt_of_le hlt hle, fun i h1 h2 => ?_⟩⟩
    · by_cases hi : i = k + 1
      · rw [hi]
      · exact le_of_lt (lt_of_lt_of_le hlt (hlow i (by omega) h2))
    · exact lt_of_lt_of_le hlt (hlow i h1 h2)
  · rw [if_neg hlt]
    have hge : s.minError ≤ error (k + 1) := not_lt.mp hlt
    have hlow' : ∀ i, k < i → i ≤ 31 → s.minError ≤ error i := by
      intro i h1 h2
      by_cases hi : i = k + 1
      · rw [hi]; exact hge
      · exact hlow i (by omega) h2
    refine ⟨hlow', ?_⟩
    rcases hsel with ⟨hs, hall⟩ | ⟨h3, hko, ho, hmin, hsbr, h100, hstrict⟩
    · refine Or.inl ⟨hs, fun i h1 h2 => ?_⟩
      have := hlow' i h1 h2
      rw [hs] at this
      exact this
    · exact Or.inr ⟨h3, by omega, ho, hmin, hsbr, h100, hstrict⟩

/-- Where the loop stops, the invariant covers every candidate `3..31`. -/
theorem searchInv_exit (error : Nat → ℚ) (sbr : Nat → Nat) (k : Nat) (s : SearchState)
    (hnn : ∀ i, 0 ≤ error i) (h : SearchInv error sbr k s)
    (hstop : ¬(3 ≤ k ∧ s.minError ≠ 0)) : SearchInv error sbr 2 s := by
  obtain ⟨hlow, hsel⟩ := h
  by_cases hk3 : 3 ≤ k
  · have hz : s.minError = 0 := by
      by_contra hne
      exact hstop ⟨hk3, hne⟩
    refine ⟨fun i _ _ => ?_, ?_⟩
    · rw [hz]
      exact hnn i
    · rcases hsel with ⟨hs, _⟩ | ⟨h3, _, ho, hmin, hsbr, h100, hstrict⟩
      · rw [hs] at hz
        have : (100 : ℚ) ≠ 0 := by norm_num
        exact absurd hz this
      · exact Or.inr ⟨h3, by omega, ho, hmin, hsbr, h100, hstrict⟩
  · refine ⟨fun i h1 h2 => hlow i (by omega) h2, ?_⟩
    rcases hsel with ⟨hs, hall⟩ | ⟨h3, _, ho, hmin, hsbr, h100, hstrict⟩
    · exact Or.inl ⟨hs, fun i h1 h2 => hall i (by omega) h2⟩
    · exact Or.inr ⟨h3, by omega, ho, hmin, hsbr, h100, hstrict⟩

/-- What the loop leaves, from any state that satisfies the invariant, when
no iteration `3..31` divides by zero: the loop returns, and the invariant
covers every candidate. -/
theorem searchLoop_spec (baudRate : Nat) (error : Nat → ℚ) (hnn : ∀ i, 0 ≤ error i)
    (hbody : ∀ (i : Nat) (s : SearchState), 3 ≤ i → i ≤ 31 →
      searchBody baudRate i s =
        some (if error i < s.minError then
          { minError := error i, osrVal := i, sbrVal := tmpSBRval baudRate i }
        else s)) :
    ∀ (k : Nat) (s : SearchState), k ≤ 31 → SearchInv error (tmpSBRval baudRate) k s →
      ∃ s', searchLoop baudRate k s = some s' ∧
        SearchInv error (tmpSBRval baudRate) 2 s' := by
  intro k
  induction k with
  | zero =>
    intro s _ h
    exact ⟨s, rfl, searchInv_exit error _ 0 s hnn h (fun hc => absurd hc.1 (by omega))⟩
  | succ k ih =>
    intro s hk h
    by_cases hcond : 3 ≤ k + 1 ∧ s.minError ≠ 0
    · have hstep : searchLoop baudRate (k + 1) s =
          searchLoop baudRate k
            (if error (k + 1) < s.minError then
              { minError := error (k + 1), osrVal := k + 1,
                sbrVal := tmpSBRval baudRate (k + 1) }
            else s) := by
        rw [searchLoop, if_pos hcond, hbody (k + 1) s hcond.1 hk]
      rw [hstep]
      exact ih _ (by omega) (searchInv_body error _ k s hcond.1 hk h)
    · have hstop : searchLoop baudRate (k + 1) s = some s := by
        rw [searchLoop, if_neg hcond]
      exact ⟨s, hstop, searchInv_exit error _ (k + 1) s hnn h hcond⟩

/-- The first divisor of the loop body, `(i + 1) * baudRate`, is non-zero for
every accepted `baudRate` and every `i <= 31`. -/
theorem search_first_divisor_ne_zero (baudRate i : Nat) (h0 : 0 < baudRate)
    (hmax : baudRate ≤ MAX_BAUDRATE) (hi : i ≤ 31) :
    Bits.u32 ((i + 1) * baudRate) = (i + 1) * baudRate ∧ (i + 1) * baudRate ≠ 0 := by
  rw [max_baudrate_eq] at hmax
  have h1 : (i + 1) * baudRate ≤ 32 * 12000000 :=
    Nat.mul_le_mul (by omega) hmax
  have h2 : 0 < (i + 1) * baudRate := Nat.mul_pos (by omega) h0
  refine ⟨?_, by omega⟩
  unfold Bits.u32
  exact Nat.mod_eq_of_lt (by omega)

/-- For an accepted `baudRate` such that no candidate `i = 3..31` has
`tmpSBRval = 0`, the loop returns, and its result satisfies the invariant
over all candidates, the error of candidate `i` being that of the rate
`clock / ((i + 1) * tmpSBRval)`. -/
theorem search_returns (baudRate : Nat) (h0 : 0 < baudRate)
    (hmax : baudRate ≤ MAX_BAUDRATE)
    (hdiv : ∀ i, 3 ≤ i → i ≤ 31 → tmpSBRval baudRate i ≠ 0) :
    ∃ s, searchLoop baudRate 31 searchStart = some s ∧
      SearchInv
        (fun i => searchError baudRate (clock / ((i + 1) * tmpSBRval baudRate i)))
        (tmpSBRval baudRate) 2 s := by
  refine searchLoop_spec baudRate _ (fun i => searchError_nonneg _ _) ?_ 31 searchStart
    (le_refl _) (searchInv_start _ _)
  intro i s h3 hi
  have hu := search_first_divisor_ne_zero baudRate i h0 hmax hi
  have h1 : Bits.u32 ((i + 1) * baudRate) ≠ 0 := by
    rw [hu.1]
    exact hu.2
  exact searchBody_eq baudRate i s h1 (hdiv i h3 hi)

/-- What `LPUART_BaudRateConfig` hands to `HAL_LPUART_SetBaudrate` for an
accepted `baudRate` such that no candidate `i = 3..31` has `tmpSBRval = 0`:
the loop returns, and either nothing has been selected, every candidate having
an error of at least 100, and the initial `osrVal = 0`, `sbrVal = 0` are
handed on; or the candidate handed on has the least error of all candidates
and a strictly smaller error than every larger candidate. -/
theorem search_result (baudRate : Nat) (h0 : 0 < baudRate)
    (hmax : baudRate ≤ MAX_BAUDRATE)
    (hdiv : ∀ i, 3 ≤ i → i ≤ 31 → tmpSBRval baudRate i ≠ 0) :
    ∃ s ∈ searchLoop baudRate 31 searchStart,
      (s = searchStart ∧
        ∀ i, 3 ≤ i → i ≤ 31 →
          ∃ rate ∈ tmpBaudRate baudRate i, 100 ≤ searchError baudRate rate) ∨
      (3 ≤ s.osrVal ∧ s.osrVal ≤ 31 ∧ s.sbrVal = tmpSBRval baudRate s.osrVal ∧
        ∃ best ∈ tmpBaudRate baudRate s.osrVal,
          (∀ i, 3 ≤ i → i ≤ 31 →
            ∃ rate ∈ tmpBaudRate baudRate i,
              searchError baudRate best ≤ searchError baudRate rate) ∧
          (∀ i, s.osrVal < i → i ≤ 31 →
            ∃ rate ∈ tmpBaudRate baudRate i,
              searchError baudRate best < searchError baudRate rate)) := by
  obtain ⟨s, hs, hlow, hsel⟩ := search_returns baudRate h0 hmax hdiv
  refine ⟨s, hs, ?_⟩
  rcases hsel with ⟨hstart, hall⟩ | ⟨h3, _, ho, hmin, hsbr, _, hstrict⟩
  · exact Or.inl ⟨hstart, fun i h1 h2 =>
      ⟨_, tmpBaudRate_eq_some baudRate i (hdiv i h1 h2), hall i (by omega) h2⟩⟩
  · refine Or.inr ⟨h3, ho, hsbr, _, tmpBaudRate_eq_some baudRate _ (hdiv _ h3 ho),
      fun i h1 h2 => ⟨_, tmpBaudRate_eq_some baudRate i (hdiv i h1 h2), ?_⟩,
      fun i h1 h2 => ⟨_, tmpBaudRate_eq_some baudRate i (hdiv i (by omega) h2), ?_⟩⟩
    · have := hlow i (by omega) h2
      rw [hmin] at this
      exact this
    · have := hstrict i h1 h2
      rw [hmin] at this
      exact this

/-- The loop body is executed at most `k - 2` times when the loop is entered
with loop variable `k`, and only at loop variables in `3..k`. -/
theorem searchIterations_bound (baudRate : Nat) :
    ∀ (k : Nat) (s : SearchState),
      (searchIterations baudRate k s).length ≤ k - 2 ∧
        ∀ i ∈ searchIterations baudRate k s, 3 ≤ i ∧ i ≤ k := by
  intro k
  induction k with
  | zero =>
    intro s
    exact ⟨Nat.zero_le _, fun i hi => by cases hi⟩
  | succ k ih =>
    intro s
    by_cases hcond : 3 ≤ k + 1 ∧ s.minError ≠ 0
    · rw [searchIterations, if_pos hcond]
      cases hb : searchBody baudRate (k + 1) s with
      | none =>
        refine ⟨?_, fun i hi => ?_⟩
        · show 1 ≤ k + 1 - 2
          omega
        · rcases List.mem_cons.mp hi with hi | hi
          · omega
          · cases hi
      | some s' =>
        obtain ⟨hlen, hmem⟩ := ih s'
        refine ⟨?_, fun i hi => ?_⟩
        · show (searchIterations baudRate k s').length + 1 ≤ k + 1 - 2
          omega
        · rcases List.mem_cons.mp hi with hi | hi
          · omega
          · have := hmem i hi
            omega
    · rw [searchIterations, if_neg hcond]
      exact ⟨Nat.zero_le _, fun i hi => by cases hi⟩

/-- The loop of `LPUART_BaudRateConfig` runs its body at most 29 times. -/
theorem search_terminates (baudRate : Nat) :
    (searchIterations baudRate 31 searchStart).length ≤ 29 :=
  (searchIterations_bound baudRate 31 searchStart).1

/-- For every accepted `baudRate` above 1,500,000 (`clock / 32`) the first
iteration, at `i = 31`, is executed with `tmpSBRval = 0`: its second divisor
`(i + 1) * tmpSBRval` is zero. -/
theorem search_second_divisor_zero (baudRate : Nat) (hlo : 1500000 < baudRate)
    (hmax : baudRate ≤ MAX_BAUDRATE) :
    31 ∈ searchIterations baudRate 31 searchStart ∧
      tmpSBRval baudRate 31 = 0 ∧ (31 + 1) * tmpSBRval baudRate 31 = 0 := by
  have hu := (search_first_divisor_ne_zero baudRate 31 (by omega) hmax (le_refl _)).1
  have hz : tmpSBRval baudRate 31 = 0 := by
    unfold tmpSBRval
    rw [hu]
    have : clock / ((31 + 1) * baudRate) = 0 :=
      Nat.div_eq_of_lt (by simp only [clock]; omega)
    rw [this]
  refine ⟨?_, hz, by rw [hz]⟩
  have hcond : 3 ≤ 30 + 1 ∧ searchStart.minError ≠ 0 := by
    refine ⟨by omega, ?_⟩
    show (100 : ℚ) ≠ 0
    norm_num
  show 31 ∈ searchIterations baudRate (30 + 1) searchStart
  rw [searchIterations, if_pos hcond]
  exact List.mem_cons_self _ _

/-- For every accepted `baudRate` above 1,500,000 the loop has no defined
result: its first iteration divides by zero. -/
theorem search_no_result (baudRate : Nat) (hlo : 1500000 < baudRate)
    (hmax : baudRate ≤ MAX_BAUDRATE) : searchLoop baudRate 31 searchStart = none := by
  have hz := (search_second_divisor_zero baudRate hlo hmax).2.1
  have hcond : 3 ≤ 30 + 1 ∧ searchStart.minError ≠ 0 := by
    refine ⟨by omega, ?_⟩
    show (100 : ℚ) ≠ 0
    norm_num
  show searchLoop baudRate (30 + 1) searchStart = none
  rw [searchLoop, if_pos hcond, searchBody_eq_none baudRate (30 + 1) searchStart hz]

/-- For every `baudRate` in `1..1,500,000` no candidate `i = 3..31` has
`tmpSBRval = 0`: the quotient `clock / ((i + 1) * baudRate)` is at least 1,
and its low 16 bits are not all zero. -/
theorem tmpSBRval_ne_zero (baudRate i : Nat) (h0 : 0 < baudRate)
    (hb : baudRate ≤ 1500000) (h3 : 3 ≤ i) (hi : i ≤ 31) :
    tmpSBRval baudRate i ≠ 0 := by
  by_cases hsmall : baudRate < 184
  · have hall : ∀ b < 184, ∀ j < 32, 0 < b → 3 ≤ j → tmpSBRval b j ≠ 0 := by
      decide!
    exact hall baudRate hsmall i (by omega) h0 h3
  · have hmax : baudRate ≤ MAX_BAUDRATE := by
      rw [max_baudrate_eq]
      omega
    have hu := (search_first_divisor_ne_zero baudRate i h0 hmax hi).1
    have hlo : 736 ≤ (i + 1) * baudRate :=
      Nat.mul_le_mul (show 4 ≤ i + 1 by omega) (show 184 ≤ baudRate by omega)
    have hhi : (i + 1) * baudRate ≤ 32 * 1500000 :=
      Nat.mul_le_mul (by omega) hb
    have hq1 : 1 ≤ clock / ((i + 1) * baudRate) := by
      rw [Nat.le_div_iff_mul_le (by omega)]
      simp only [clock]
      omega
    have hq2 : clock / ((i + 1) * baudRate) < 65536 := by
      rw [Nat.div_lt_iff_lt_mul (by omega)]
      simp only [clock]
      omega
    unfold tmpSBRval
    rw [hu, Nat.mod_eq_of_lt hq2]
    omega

/-! The result of `LPUART_BaudRateConfig` and of `LPUART_Init` on every
input. -/

/-- The result of `LPUART_BaudRateConfig` on every input.  When the instance
is not LPUART0, LPUART1 or LPUART2, or `baudRate` is 0 or above
`MAX_BAUDRATE = 12,000,000`, it returns `LPUART_E_NOT_OK` and leaves the
register block unchanged.  When the instance is one of the three and
`0 < baudRate <= 1,500,000`, it returns `LPUART_E_OK`, having written the
pair left by the loop to BAUD.  When the instance is one of the three and
`1,500,000 < baudRate <= MAX_BAUDRATE`, it has no defined result: the loop
divides by zero. -/
theorem baud_rate_config_result (h : LpuartHeader) (pLPUARTx : Nat)
    (r : LPUART_Type) (baudRate : Nat) :
    (¬((pLPUARTx = h.LPUART0 ∨ pLPUARTx = h.LPUART1 ∨ pLPUARTx = h.LPUART2) ∧
        0 < baudRate ∧ baudRate ≤ MAX_BAUDRATE) →
      LPUART_BaudRateConfig h pLPUARTx r baudRate =
        some (Std_LPUART_Status.LPUART_E_NOT_OK, r)) ∧
    ((pLPUARTx = h.LPUART0 ∨ pLPUARTx = h.LPUART1 ∨ pLPUARTx = h.LPUART2) →
      0 < baudRate → baudRate ≤ 1500000 →
      ∃ s ∈ searchLoop baudRate 31 searchStart,
        LPUART_BaudRateConfig h pLPUARTx r baudRate =
          some (Std_LPUART_Status.LPUART_E_OK,
            HAL_LPUART_SetBaudrate h r s.osrVal s.sbrVal)) ∧
    ((pLPUARTx = h.LPUART0 ∨ pLPUARTx = h.LPUART1 ∨ pLPUARTx = h.LPUART2) →
      1500000 < baudRate → baudRate ≤ MAX_BAUDRATE →
      LPUART_BaudRateConfig h pLPUARTx r baudRate = none) := by
  have key : (INSTANCE_IS_AVAILABLE h pLPUARTx = true ∧ 0 ≠ baudRate ∧
      MAX_BAUDRATE ≥ baudRate) ↔
      ((pLPUARTx = h.LPUART0 ∨ pLPUARTx = h.LPUART1 ∨ pLPUARTx = h.LPUART2) ∧
        0 < baudRate ∧ baudRate ≤ MAX_BAUDRATE) := by
    rw [instance_is_available_iff]
    constructor
    · rintro ⟨h1, h2, h3⟩
      exact ⟨h1, Nat.pos_of_ne_zero (Ne.symm h2), h3⟩
    · rintro ⟨h1, h2, h3⟩
      exact ⟨h1, (Nat.ne_of_gt h2).symm, h3⟩
  refine ⟨fun hn => ?_, fun ha h0 hb => ?_, fun ha hlo hmax => ?_⟩
  · rw [← key] at hn
    unfold LPUART_BaudRateConfig
    rw [if_neg hn]
  · have hmax : baudRate ≤ MAX_BAUDRATE := by
      rw [max_baudrate_eq]
      omega
    obtain ⟨s, hs, _⟩ := search_returns baudRate h0 hmax
      (fun i h3 hi => tmpSBRval_ne_zero baudRate i h0 hb h3 hi)
    refine ⟨s, hs, ?_⟩
    have hs' : searchLoop baudRate 31 { minError := 100, osrVal := 0, sbrVal := 0 } =
        some s := hs
    unfold LPUART_BaudRateConfig
    rw [if_pos (key.mpr ⟨ha, h0, hmax⟩), hs']
  · have hn : searchLoop baudRate 31 { minError := 100, osrVal := 0, sbrVal := 0 } =
        none := search_no_result baudRate hlo hmax
    unfold LPUART_BaudRateConfig
    rw [if_pos (key.mpr ⟨ha, by omega, hmax⟩), hn]

/-- The result of `LPUART_Init` on every input.  For a handle that
`LPUART_CheckHandleValidation` rejects it returns `LPUART_E_NOT_OK` and
leaves the register block (CTRL, BAUD, STAT, DATA) unchanged.  For a handle
that the check accepts, it returns `LPUART_E_OK` when
`baudRate <= 1,500,000`, and has no defined result when
`baudRate > 1,500,000`: its call of `LPUART_BaudRateConfig` divides by
zero. -/
theorem init_result (h : LpuartHeader) (hd : LPUART_Handle_Type) (r : LPUART_Type) :
    (LPUART_CheckHandleValidation h hd ≠ Std_LPUART_Status.LPUART_E_OK →
      LPUART_Init h hd r = some (Std_LPUART_Status.LPUART_E_NOT_OK, r)) ∧
    (LPUART_CheckHandleValidation h hd = Std_LPUART_Status.LPUART_E_OK →
      hd.LPUART_Config.baudRate ≤ 1500000 →
      ∃ x ∈ LPUART_Init h hd r, x.1 = Std_LPUART_Status.LPUART_E_OK) ∧
    (LPUART_CheckHandleValidation h hd = Std_LPUART_Status.LPUART_E_OK →
      1500000 < hd.LPUART_Config.baudRate →
      LPUART_Init h hd r = none) := by
  refine ⟨fun hn => ?_, fun hok hb => ?_, fun hok hlo => ?_⟩
  · have hc : ¬(Std_LPUART_Status.LPUART_E_OK = LPUART_CheckHandleValidation h hd) :=
      fun hx => hn hx.symm
    unfold LPUART_Init
    rw [if_neg hc]
  · have hv := (check_handle_validation_iff h hd).mp hok
    have ha := hv.1
    have h0 := hv.2.2.2.2.2.2.2.2.2.2.2.2.2.2.1
    obtain ⟨s, _, hcfg⟩ := (baud_rate_config_result h hd.pLPUARTx
      (HAL_LPUART_MSBFConfig h
        (HAL_LPUART_SetNumOfStopBit h
          (HAL_LPUART_RxDataInversionConfig h
            (HAL_LPUART_TxDataInversionConfig h
              (HAL_LPUART_ParityConfig h
                (HAL_LPUART_FrameLengthConfig h
                  (HAL_LPUART_ClearRE h (HAL_LPUART_ClearTE h r))
                  hd.LPUART_Config.frameLenth)
                hd.LPUART_Config.parityMode)
              hd.LPUART_Config.txPolarity)
            hd.LPUART_Config.rxPolarity)
          hd.LPUART_Config.nOfStopBits)
        hd.LPUART_Config.msbFirst)
      hd.LPUART_Config.baudRate).2.1 ha h0 hb
    unfold LPUART_Init
    dsimp only
    rw [if_pos hok.symm, hcfg]
    exact ⟨_, rfl, rfl⟩
  · have hv := (check_handle_validation_iff h hd).mp hok
    have ha := hv.1
    have hmax : hd.LPUART_Config.baudRate ≤ MAX_BAUDRATE :=
      hv.2.2.2.2.2.2.2.2.2.2.2.2.2.2.2
    have hcfg := (baud_rate_config_result h hd.pLPUARTx
      (HAL_LPUART_MSBFConfig h
        (HAL_LPUART_SetNumOfStopBit h
          (HAL_LPUART_RxDataInversionConfig h
            (HAL_LPUART_TxDataInversionConfig h
              (HAL_LPUART_ParityConfig h
                (HAL_LPUART_FrameLengthConfig h
                  (HAL_LPUART_ClearRE h (HAL_LPUART_ClearTE h r))
                  hd.LPUART_Config.frameLenth)
                hd.LPUART_Config.parityMode)
              hd.LPUART_Config.txPolarity)
            hd.LPUART_Config.rxPolarity)
          hd.LPUART_Config.nOfStopBits)
        hd.LPUART_Config.msbFirst)
      hd.LPUART_Config.baudRate).2.2 ha hlo hmax
    unfold LPUART_Init
    dsimp only
    rw [if_pos hok.symm, hcfg]

/-- Claim C12, at a failing input: `baudRate = 3,000,000` on LPUART0 passes
the check of `LPUART_BaudRateConfig` (the instance is available and
`0 < baudRate <= MAX_BAUDRATE`), and the function has no defined result: at
`i = 31` the loop computes `clock / ((i + 1) * tmpSBRval)` with
`tmpSBRval = 0`, a division by zero, so it does not return `LPUART_E_OK`.  At
`baudRate = 1,500,000` it does return `LPUART_E_OK`. -/
theorem baud_rate_config_divides_by_zero :
    (INSTANCE_IS_AVAILABLE s32k144Lpuart s32k144Lpuart.LPUART0 = true ∧
      0 < 3000000 ∧ 3000000 ≤ MAX_BAUDRATE) ∧
    tmpBaudRate 3000000 31 = none ∧
    LPUART_BaudRateConfig s32k144Lpuart s32k144Lpuart.LPUART0 lpuartResetRegs 3000000 =
      none ∧
    (∃ x ∈ LPUART_BaudRateConfig s32k144Lpuart s32k144Lpuart.LPUART0 lpuartResetRegs
        1500000,
      x.1 = Std_LPUART_Status.LPUART_E_OK) := by
  decide!

/-- Claim C25, at a failing input: `fastHandle` (LPUART0, 8-bit frames, no
parity, 3,000,000 baud) passes `LPUART_CheckHandleValidation`, and
`LPUART_Init` has no defined result: its call of `LPUART_BaudRateConfig`
divides by zero in the first iteration of the loop, so `LPUART_Init` does not
return `LPUART_E_OK`. -/
theorem init_divides_by_zero :
    LPUART_CheckHandleValidation s32k144Lpuart fastHandle =
      Std_LPUART_Status.LPUART_E_OK ∧
    fastHandle.LPUART_Config.baudRate = 3000000 ∧
    LPUART_Init s32k144Lpuart fastHandle lpuartResetRegs = none := by
  decide!

/-- Claim C28, at a failing input: `baudRate = 3,000,000` is accepted
(`0 < baudRate <= MAX_BAUDRATE`); the loop body is executed at `i = 31`,
where `tmpSBRval = 48,000,000 / 96,000,000 = 0`, so the second division,
`clock / ((i + 1) * tmpSBRval)`, has the divisor 0. -/
theorem search_divides_by_zero :
    (0 < 3000000 ∧ 3000000 ≤ MAX_BAUDRATE) ∧
      31 ∈ searchIterations 3000000 31 searchStart ∧
      tmpSBRval 3000000 31 = 0 ∧
      searchDivisors 3000000 31 = [96000000, 0] := by
  decide!

/-- Claim C29, at a failing input: `LPUART_BaudRateConfig` accepts
`baudRate = 1` on LPUART0 and returns `LPUART_E_OK`, and the values it hands
to `HAL_LPUART_SetBaudrate` are `OSR = 0` and `SBR = 0`, the initial values of
`osrVal` and `sbrVal`: from the reset value `0x0F000004` the register BAUD
becomes 0. -/
theorem baud_rate_config_hands_zero :
    (∃ x ∈ LPUART_BaudRateConfig s32k144Lpuart s32k144Lpuart.LPUART0 lpuartResetRegs 1,
      x.1 = Std_LPUART_Status.LPUART_E_OK ∧
        x.2 = HAL_LPUART_SetBaudrate s32k144Lpuart lpuartResetRegs 0 0 ∧
        x.2.BAUD = 0) ∧
      (∃ s ∈ searchLoop 1 31 searchStart, s.osrVal = 0 ∧ s.sbrVal = 0) ∧
      lpuartResetRegs.BAUD = 0x0F000004 := by
  decide!

/-- Claim C24, at a failing input: for `baudRate = 1` the candidate `i = 31`
(`sbr = 58208`, `rate = 25`) has the least error `rate(i) - baudRate = 24` of
the candidates `3..31`, every one of which has a defined rate, and the pair
handed to `HAL_LPUART_SetBaudrate` is `(0, 0)`, which is the pair of no
candidate. -/
theorem search_misses_best_candidate :
    (tmpSBRval 1 31 = 58208 ∧ tmpBaudRate 1 31 = some 25) ∧
      (∀ i ∈ List.range' 3 29, ∃ rate ∈ tmpBaudRate 1 i, 25 - 1 ≤ rate - 1) ∧
      (∃ s ∈ searchLoop 1 31 searchStart,
        (s.osrVal, s.sbrVal) = (0, 0) ∧ ∀ i ∈ List.range' 3 29, s.osrVal ≠ i) := by
  decide!

/-! The search on the inputs where no candidate has `tmpSBRval = 0` and some
candidate has an error below 100: there the differences `rate(i) - baudRate`
do not wrap and the candidate handed on is the best one. -/

/-- A candidate with `tmpSBRval` non-zero has a rate of at least `baudRate`. -/
theorem baud_le_tmpBaudRate (baudRate i : Nat) (h0 : 0 < baudRate)
    (hmax : baudRate ≤ MAX_BAUDRATE) (hi : i ≤ 31) (hs : tmpSBRval baudRate i ≠ 0) :
    ∃ rate ∈ tmpBaudRate baudRate i, baudRate ≤ rate ∧ rate ≤ 48000000 := by
  have hu := (search_first_divisor_ne_zero baudRate i h0 hmax hi).1
  have hsle : tmpSBRval baudRate i ≤ clock / ((i + 1) * baudRate) := by
    unfold tmpSBRval
    rw [hu]
    exact Nat.mod_le _ _
  have hpos : 0 < (i + 1) * tmpSBRval baudRate i :=
    Nat.mul_pos (by omega) (Nat.pos_of_ne_zero hs)
  refine ⟨_, tmpBaudRate_eq_some baudRate i hs, ?_, Nat.div_le_self _ _⟩
  rw [Nat.le_div_iff_mul_le hpos]
  calc baudRate * ((i + 1) * tmpSBRval baudRate i)
      = (i + 1) * baudRate * tmpSBRval baudRate i := by ring
    _ ≤ (i + 1) * baudRate * (clock / ((i + 1) * baudRate)) :=
        Nat.mul_le_mul_left _ hsle
    _ ≤ clock := Nat.mul_div_le _ _

/-- Where the rate is at least `baudRate`, the `uint32_t` difference is the
exact one. -/
theorem searchError_eq (baudRate rate : Nat) (hmax : baudRate ≤ MAX_BAUDRATE)
    (hge : baudRate ≤ rate) (hr : rate ≤ 48000000) :
    searchError baudRate rate =
      (((rate - baudRate : Nat) : ℚ) / (baudRate : ℚ)) * 100 := by
  rw [max_baudrate_eq] at hmax
  have hd : Bits.u32 (rate + 4294967296 - Bits.u32 baudRate) = rate - baudRate := by
    unfold Bits.u32
    omega
  unfold searchError
  rw [hd]

theorem scaled_le_iff (b x y : Nat) (hb : 0 < b) :
    ((x : ℚ) / (b : ℚ)) * 100 ≤ ((y : ℚ) / (b : ℚ)) * 100 ↔ x ≤ y := by
  have hb' : (0 : ℚ) < (b : ℚ) := by exact_mod_cast hb
  rw [mul_le_mul_right (by norm_num : (0 : ℚ) < 100), div_le_div_iff_of_pos_right hb', Nat.cast_le]

theorem scaled_lt_iff (b x y : Nat) (hb : 0 < b) :
    ((x : ℚ) / (b : ℚ)) * 100 < ((y : ℚ) / (b : ℚ)) * 100 ↔ x < y := by
  have hb' : (0 : ℚ) < (b : ℚ) := by exact_mod_cast hb
  rw [mul_lt_mul_right (by norm_num : (0 : ℚ) < 100), div_lt_div_iff_of_pos_right hb', Nat.cast_lt]

theorem scaled_lt_hundred_iff (b x : Nat) (hb : 0 < b) :
    ((x : ℚ) / (b : ℚ)) * 100 < 100 ↔ x < b := by
  have hb' : (0 : ℚ) < (b : ℚ) := by exact_mod_cast hb
  have h1 : ((x : ℚ) / (b : ℚ)) * 100 < 100 ↔ (x : ℚ) / (b : ℚ) < 1 := by
    constructor
    · intro h; nlinarith
    · intro h; nlinarith
  rw [h1, div_lt_one hb', Nat.cast_lt]

/-- The search picks the best candidate where its defects do not strike: for
every accepted `baudRate` such that no candidate `i = 3..31` has
`tmpSBRval = 0` and some candidate has a rate below `2 * baudRate` (an error
below 100), the loop returns and the pair `(osrVal, sbrVal)` handed to
`HAL_LPUART_SetBaudrate` is `(i*, tmpSBRval i*)` for a candidate `i*` whose
error `tmpBaudRate i* - baudRate` is at most that of every candidate and
strictly less than that of every larger candidate. -/
theorem search_picks_best (baudRate : Nat) (h0 : 0 < baudRate)
    (hmax : baudRate ≤ MAX_BAUDRATE)
    (hdiv : ∀ i, 3 ≤ i → i ≤ 31 → tmpSBRval baudRate i ≠ 0)
    (hex : ∃ i, 3 ≤ i ∧ i ≤ 31 ∧ ∃ rate ∈ tmpBaudRate baudRate i, rate < 2 * baudRate) :
    ∃ s ∈ searchLoop baudRate 31 searchStart,
      3 ≤ s.osrVal ∧ s.osrVal ≤ 31 ∧ s.sbrVal = tmpSBRval baudRate s.osrVal ∧
      ∃ best ∈ tmpBaudRate baudRate s.osrVal,
        (∀ i, 3 ≤ i → i ≤ 31 →
          ∃ rate ∈ tmpBaudRate baudRate i, best - baudRate ≤ rate - baudRate) ∧
        (∀ i, s.osrVal < i → i ≤ 31 →
          ∃ rate ∈ tmpBaudRate baudRate i, best - baudRate < rate - baudRate) := by
  have hrate : ∀ i, 3 ≤ i → i ≤ 31 →
      ∃ rate, tmpBaudRate baudRate i = some rate ∧
        searchError baudRate rate =
          (((rate - baudRate : Nat) : ℚ) / (baudRate : ℚ)) * 100 := by
    intro i h1 h2
    obtain ⟨rate, hmem, hge, hle⟩ := baud_le_tmpBaudRate baudRate i h0 hmax h2 (hdiv i h1 h2)
    exact ⟨rate, hmem, searchError_eq baudRate rate hmax hge hle⟩
  obtain ⟨s, hs, hres⟩ := search_result baudRate h0 hmax hdiv
  refine ⟨s, hs, ?_⟩
  rcases hres with ⟨_, hall⟩ | ⟨h3, ho, hsbr, best, hbest, hle, hlt⟩
  · exfalso
    obtain ⟨i, h1, h2, rate, hmem, hlt⟩ := hex
    obtain ⟨rate', hmem', h100⟩ := hall i h1 h2
    obtain ⟨rate'', hmem'', herr⟩ := hrate i h1 h2
    have e1 : rate' = rate := Option.some.inj (hmem'.symm.trans hmem)
    have e2 : rate'' = rate := Option.some.inj (hmem''.symm.trans hmem)
    rw [e1] at h100
    rw [e2] at herr
    rw [herr] at h100
    have : ¬ (((rate - baudRate : Nat) : ℚ) / (baudRate : ℚ)) * 100 < 100 :=
      not_lt.mpr h100
    rw [scaled_lt_hundred_iff _ _ h0] at this
    omega
  · obtain ⟨best', hbest', herrb⟩ := hrate _ h3 ho
    have eb : best' = best := Option.some.inj (hbest'.symm.trans hbest)
    rw [eb] at herrb
    refine ⟨h3, ho, hsbr, best, hbest, fun i h1 h2 => ?_, fun i h1 h2 => ?_⟩
    · obtain ⟨rate, hmem, hcmp⟩ := hle i h1 h2
      obtain ⟨rate', hmem', herr⟩ := hrate i h1 h2
      have e1 : rate' = rate := Option.some.inj (hmem'.symm.trans hmem)
      rw [e1] at herr
      rw [herrb, herr, scaled_le_iff _ _ _ h0] at hcmp
      exact ⟨rate, hmem, hcmp⟩
    · obtain ⟨rate, hmem, hcmp⟩ := hlt i h1 h2
      obtain ⟨rate', hmem', herr⟩ := hrate i (by omega) h2
      have e1 : rate' = rate := Option.some.inj (hmem'.symm.trans hmem)
      rw [e1] at herr
      rw [herrb, herr, scaled_lt_iff _ _ _ h0] at hcmp
      exact ⟨rate, hmem, hcmp⟩

/-- The search at 9600 baud: no candidate has `tmpSBRval = 0`, the candidate
`i = 24` with `sbr = 200` gives exactly 9600 baud, and it is the pair handed
on. -/
theorem search_picks_best_at_9600 :
    searchLoop 9600 31 searchStart = some { minError := 0, osrVal := 24, sbrVal := 200 } ∧
      tmpBaudRate 9600 24 = some 9600 ∧
      (∃ s ∈ searchLoop 9600 31 searchStart,
        3 ≤ s.osrVal ∧ s.osrVal ≤ 31 ∧ s.sbrVal = tmpSBRval 9600 s.osrVal ∧
        ∃ best ∈ tmpBaudRate 9600 s.osrVal,
          (∀ i, 3 ≤ i → i ≤ 31 →
            ∃ rate ∈ tmpBaudRate 9600 i, best - 9600 ≤ rate - 9600) ∧
          (∀ i, s.osrVal < i → i ≤ 31 →
            ∃ rate ∈ tmpBaudRate 9600 i, best - 9600 < rate - 9600)) := by
  have hdiv : ∀ i, 3 ≤ i → i ≤ 31 → tmpSBRval 9600 i ≠ 0 :=
    fun i h1 h2 => tmpSBRval_ne_zero 9600 i (by decide) (by decide) h1 h2
  exact ⟨by decide!, by decide!,
    search_picks_best 9600 (by decide) (by decide) hdiv
      ⟨31, by decide, by decide, by decide!⟩⟩

end Lpuart
